import Mathlib

/-!
Verification development for the orbisat repository.

This file gives a shallow embedding, in Lean 4, of the parts of the
orbisat code base that the specification's claims are about:

* `src/orbisat_services/communication.py` — the satellite/ground-station
  communication engine (`SatelliteStationComm`): visibility, look angles,
  Doppler link frequencies, session detection and session summaries;
* `src/orbitron_main/orbitron.py` — the registry (`Orbitron`) with its
  setup checks and point-in-time query operations;
* `src/orbitron_services/satellite.py` — the `predict_cm` TLE guard;
* `src/orbitron_services/ground_station.py` — `GroundStation.__init__`
  and the geodetic → ECEF transform;
* `src/tcp/orbitron_tcp_server.py` / `src/orbisat/tcp/TcpServerABC.py` —
  the `get_setuped_stations` reply and the error → status-7 mapping.

Modelling conventions:

* Python dictionaries are modelled as association lists `List (κ × β)`
  in insertion order; lookups are first-match.
* Python exceptions are modelled with `Except PyErr`; reading a local
  variable or attribute before assignment is an explicit error value
  (Python raises `UnboundLocalError` / `AttributeError` there).
* Python truthiness is modelled where the source relies on it
  (`if azimuth_prev:`, `if self.satellite.uplink_freq:`): `None` and `0`
  are falsy, any other number is truthy, object instances are truthy.
* Real-valued numerics (square roots, trigonometry) are embedded over `ℝ`;
  purely structural computations (registry bookkeeping, session scanning,
  session summaries) are embedded over `ℚ` so they evaluate on concrete
  inputs.
* The source's `datetime` keys are modelled as integers where only their
  order matters, and as the record `PyDateTime` where the session-key
  computation `replace(second=0)` needs the individual fields.
-/

/-- Python exception kinds raised (or swallowed) by the modelled code
paths.  `predictFallback` is not an exception: it marks the code path
where a comm method, finding no predicted trajectory, would invoke the
propagator (`self.satellite.predict_cm()`) as a fallback — that numerical
fallback is outside this embedding, and every theorem below concerns
states where the trajectory is present. -/
inductive PyErr where
  | newOrbitronSetupError
  | newOrbitronDataError
  | tleDataError
  | attributeError
  | unboundLocalError
  | keyError
  | indexError
  | predictFallback
  deriving DecidableEq, Repr

/-! ## Session-boundary scan

`SatelliteStationComm._calculate_comm_session_times_for_predicted_period`
(communication.py:289-337) walks the predicted trajectory in order,
evaluating `self._calculate_visibility(pos_ecef_sat)` on each sample.  The
scan below is that loop with the per-sample visibility value supplied in
the input list (the geometric visibility computation itself is embedded
separately as `calculate_visibility`).

Python local-variable semantics are modelled exactly:

* `comm_flag` starts `False`;
* `start_comm_session` is `none` while unbound or `None`;
* `end_comm_session` is unbound until the first session closes
  (`endDefined = false`); after a close-and-reset it holds `None`
  (`endDefined = true`).  The final statement
  `if comm_flag and not end_comm_session: session_times.append((start_comm_session, dt))`
  reads `end_comm_session`, so when `comm_flag` is true and no session ever
  closed, CPython raises `UnboundLocalError`; `dt` is the loop variable,
  i.e. the key of the last sample. -/
def calculate_comm_session_times {κ : Type} :
    List (κ × Bool) → Bool → Option κ → Bool → List (κ × κ) → Option κ →
    Except PyErr (List (κ × κ))
  | [], comm_flag, start, endDefined, acc, last =>
      if comm_flag then
        if endDefined then
          match start, last with
          | some s, some d => .ok (acc ++ [(s, d)])
          | _, _ => .error .unboundLocalError
        else .error .unboundLocalError
      else .ok acc
  | (dt, visibility) :: rest, comm_flag, start, endDefined, acc, _last =>
      if visibility && !comm_flag then
        calculate_comm_session_times rest true (some dt) endDefined acc (some dt)
      else if !visibility && comm_flag then
        match start with
        | some s =>
            calculate_comm_session_times rest false none true
              (acc ++ [(s, dt)]) (some dt)
        | none => .error .unboundLocalError
      else
        calculate_comm_session_times rest comm_flag start endDefined acc (some dt)

/-- The session scan on a plain visibility timeline, instants being the
sample indices (the dictionary keys are in chronological insertion order,
so index order is instant order). -/
def session_scan (vis : List Bool) : Except PyErr (List (ℕ × ℕ)) :=
  calculate_comm_session_times vis.enum false none false [] none

/-- Session-boundary property of a pair `(s, e)` of sample indices with
respect to a visibility timeline `V`: the start sample is visible, the
sample immediately before the start (if any) is not, every sample from the
start up to (excluding) the end is visible, and the end sample is either
not visible (a session closed inside the horizon: the scan records the
first non-visible instant as the end) or it is the final sample of the
horizon and visible (a session still open when the prediction ends). -/
def SessionBounds (V : List Bool) (s e : ℕ) : Prop :=
  V[s]? = some true ∧
  (s = 0 ∨ V[s - 1]? = some false) ∧
  s ≤ e ∧
  (∀ k, s ≤ k → k < e → V[k]? = some true) ∧
  (V[e]? = some false ∨ (e + 1 = V.length ∧ V[e]? = some true))

/-- Inductive invariant of the session scan, stated for the suffix of the
timeline starting at index `n`.  The state hypotheses mirror the loop of
`_calculate_comm_session_times_for_predicted_period`. -/
theorem calculate_comm_session_times_invariant (V : List Bool) :
    ∀ (tail : List Bool) (n : ℕ) (flag : Bool) (start : Option ℕ)
      (endDef : Bool) (acc : List (ℕ × ℕ)) (last : Option ℕ)
      (sess : List (ℕ × ℕ)),
      V.drop n = tail →
      n ≤ V.length →
      (∀ p ∈ acc, SessionBounds V p.1 p.2) →
      (flag = true → ∃ s, start = some s ∧ s < n ∧ V[s]? = some true ∧
          (s = 0 ∨ V[s - 1]? = some false) ∧
          ∀ k, s ≤ k → k < n → V[k]? = some true) →
      (flag = false → (n = 0 ∨ V[n - 1]? = some false)) →
      (last = if n = 0 then none else some (n - 1)) →
      calculate_comm_session_times (List.enumFrom n tail) flag start endDef
        acc last = .ok sess →
      ∀ p ∈ sess, SessionBounds V p.1 p.2 := by
  intro tail
  induction tail with
  | nil =>
    intro n flag start endDef acc last sess hdrop hlen hacc hflag hnflag hlast hrun
    have hn : n = V.length := by
      have := List.drop_eq_nil_iff.mp hdrop
      omega
    cases flag with
    | false =>
      simp only [List.enumFrom, calculate_comm_session_times, if_neg] at hrun
      simp only [Bool.false_eq_true, if_false] at hrun
      cases hrun
      exact hacc
    | true =>
      obtain ⟨s, hstart, hsn, hvs, hpred, hrange⟩ := hflag rfl
      have hn0 : n ≠ 0 := by omega
      subst hstart
      subst hlast
      simp only [List.enumFrom, calculate_comm_session_times, if_pos rfl,
        if_neg hn0] at hrun
      cases endDef with
      | false => simp at hrun
      | true =>
        simp only [if_pos rfl] at hrun
        cases hrun
        intro p hp
        rcases List.mem_append.mp hp with h | h
        · exact hacc p h
        · have hpair : p = (s, n - 1) := by simpa using h
          subst hpair
          refine ⟨hvs, hpred, by omega, ?_, Or.inr ⟨by omega, ?_⟩⟩
          · intro k hk1 hk2
            exact hrange k hk1 (by omega)
          · exact hrange (n - 1) (by omega) (by omega)
  | cons v rest ih =>
    intro n flag start endDef acc last sess hdrop hlen hacc hflag hnflag hlast hrun
    have hvn : V[n]? = some v := by
      have h0 : (V.drop n)[0]? = some v := by rw [hdrop]; simp
      rwa [List.getElem?_drop, Nat.add_zero] at h0
    have hdrop' : V.drop (n + 1) = rest := by
      have : V.drop (n + 1) = (V.drop n).tail := by
        rw [← List.drop_drop]
        simp [List.drop_one]
      rw [this, hdrop]
      rfl
    have hlen' : n + 1 ≤ V.length := by
      by_contra hcon
      have : V.drop n = [] := List.drop_eq_nil_iff.mpr (by omega)
      rw [hdrop] at this
      cases this
    rw [List.enumFrom_cons] at hrun
    cases v with
    | true =>
      cases flag with
      | false =>
        simp only [calculate_comm_session_times, Bool.not_false, Bool.and_self,
          if_pos] at hrun
        refine ih (n + 1) true (some n) endDef acc (some n) sess hdrop' hlen'
          hacc ?_ (by simp) (by simp) hrun
        intro _
        refine ⟨n, rfl, by omega, hvn, hnflag rfl, ?_⟩
        intro k hk1 hk2
        have hkn : k = n := by omega
        subst hkn
        exact hvn
      | true =>
        simp only [calculate_comm_session_times, Bool.not_true, Bool.and_false,
          Bool.false_and, if_neg, ite_false] at hrun
        simp only [Bool.false_eq_true, if_false] at hrun
        refine ih (n + 1) true start endDef acc (some n) sess hdrop' hlen'
          hacc ?_ (by simp) (by simp) hrun
        intro _
        obtain ⟨s, hstart, hsn, hvs, hpred, hrange⟩ := hflag rfl
        refine ⟨s, hstart, by omega, hvs, hpred, ?_⟩
        intro k hk1 hk2
        rcases Nat.lt_or_ge k n with h | h
        · exact hrange k hk1 h
        · have hkn : k = n := by omega
          subst hkn
          exact hvn
    | false =>
      cases flag with
      | true =>
        obtain ⟨s, hstart, hsn, hvs, hpred, hrange⟩ := hflag rfl
        subst hstart
        simp only [calculate_comm_session_times, Bool.not_true, Bool.false_and,
          Bool.and_false, Bool.not_false, Bool.true_and, Bool.and_self,
          Bool.false_eq_true, if_false, if_pos] at hrun
        refine ih (n + 1) false none true (acc ++ [(s, n)]) (some n) sess
          hdrop' hlen' ?_ (by simp) ?_ (by simp) hrun
        · intro p hp
          rcases List.mem_append.mp hp with h | h
          · exact hacc p h
          · have hpair : p = (s, n) := by simpa using h
            subst hpair
            exact ⟨hvs, hpred, by omega, fun k hk1 hk2 => hrange k hk1 hk2,
              Or.inl hvn⟩
        · intro _
          right
          simpa using hvn
      | false =>
        simp only [calculate_comm_session_times, Bool.and_self, Bool.false_and,
          Bool.and_false, Bool.false_eq_true, if_false] at hrun
        refine ih (n + 1) false start endDef acc (some n) sess hdrop' hlen'
          hacc (by simp) ?_ (by simp) hrun
        intro _
        right
        simpa using hvn

/-- The elevation timeline of the specification's synthetic pass-detection
example, in degrees: [−1, −0.5, 0.5, 5, 10, 8, 3, −1]. -/
def example_elevations : List ℚ :=
  [-1, mkRat (-1) 2, mkRat 1 2, 5, 10, 8, 3, -1]

/-- Visibility flags of the synthetic example at `min_elev = 0`: with a zero
minimum elevation the source's visibility value reduces to the dot product
`dot(r_sat−r_stn, r_stn)`, whose sign is the sign of the elevation angle, so
a sample is visible exactly when its elevation is positive (this equivalence
is proved for the geometric embedding in
`calculate_visibility_iff_elevation_pos` below). -/
def example_visibility : List Bool :=
  example_elevations.map (fun e => decide (0 < e))

/-- C1 (amended): for every session `(s, e)` emitted by the session scan of
`_calculate_comm_session_times_for_predicted_period`, the sample at the
start instant is visible and the sample immediately before the start (if
any) is not visible; all samples from the start up to the end (exclusive)
are visible; and the sample at the end instant is NOT visible when the
session closed within the horizon (the scan records the first non-visible
instant as the session end), the end sample being visible only for a
session cut off at the final sample of the horizon.  On the synthetic
elevation timeline [−1, −0.5, 0.5, 5, 10, 8, 3, −1] with `min_elev = 0`
exactly one session is detected, with start at index 2 and end at index 7
(not 6), the session maximum lying at index 4 (shown in the accompanying
counterexample theorem). -/
theorem C1_session_bounds (vis : List Bool) (sess : List (ℕ × ℕ))
    (h : session_scan vis = .ok sess) :
    ∀ p ∈ sess, SessionBounds vis p.1 p.2 := by
  refine calculate_comm_session_times_invariant vis vis 0 false none false []
    none sess (List.drop_zero vis) (Nat.zero_le _) (by simp) (by simp) ?_ rfl h
  intro _
  exact Or.inl rfl

/-- Witness for `C1_session_bounds` at the synthetic example timeline. -/
theorem C1_session_bounds_witness :
    session_scan example_visibility = .ok [(2, 7)] ∧
    SessionBounds example_visibility 2 7 :=
  ⟨by rfl, C1_session_bounds example_visibility [(2, 7)] (by rfl) (2, 7)
    (by simp)⟩

/-- C6 (code bug): `_calculate_comm_session_times_for_predicted_period`
terminates a session that is still open at the end of the horizon only when
some earlier session already closed (so that the local `end_comm_session`
holds `None`).  When the still-open session is the first session of the
horizon, the final statement `if comm_flag and not end_comm_session:` reads
the never-assigned local `end_comm_session` and CPython raises
`UnboundLocalError` instead of emitting the session: so a fully-visible
timeline crashes, while a timeline whose trailing open session was preceded
by a closed one is terminated at the final sample as the spec says. -/
theorem C6_open_session_unbound_local :
    session_scan [true, true] = .error .unboundLocalError ∧
    session_scan [false, true] = .error .unboundLocalError ∧
    session_scan [true, false, true] = .ok [(0, 1), (2, 2)] :=
  ⟨rfl, rfl, rfl⟩

/-! ## Datetimes and session summaries

`define_session_params` (communication.py:380-455) needs the individual
fields of its datetime keys, because it stores each session under
`start_session.replace(second=0)`.  `PyDateTime` models `datetime.datetime`
with its seven fields; `ble` is the field-lexicographic order that
`datetime` comparison uses. -/
structure PyDateTime where
  year : ℕ
  month : ℕ
  day : ℕ
  hour : ℕ
  minute : ℕ
  second : ℕ
  microsecond : ℕ
  deriving DecidableEq, Repr

/-- Lexicographic comparison of datetimes, as Python compares `datetime`
values field by field. -/
def PyDateTime.ble (a b : PyDateTime) : Bool :=
  if a.year ≠ b.year then decide (a.year < b.year)
  else if a.month ≠ b.month then decide (a.month < b.month)
  else if a.day ≠ b.day then decide (a.day < b.day)
  else if a.hour ≠ b.hour then decide (a.hour < b.hour)
  else if a.minute ≠ b.minute then decide (a.minute < b.minute)
  else if a.second ≠ b.second then decide (a.second < b.second)
  else decide (a.microsecond ≤ b.microsecond)

/-- One `comm_data` value as `define_session_params` and the registry
queries read it: the `CommParams` dataclass of communication.py with its
angle fields over `ℚ` so that concrete session summaries evaluate (the
`pos_sat_ecef` field is not read by these consumers and is omitted at this
layer; the geometric pipeline that fills `comm_data` is embedded over `ℝ`
below as `CommParams`). -/
structure CommParamsQ where
  elevation : ℚ
  azimuth : ℚ
  visibility : Bool
  uplink : Option ℚ := none
  downlink : Option ℚ := none
  deriving DecidableEq, Repr

/-- The `SessionParams` dataclass of communication.py. -/
structure SessionParams where
  start_session_dt : PyDateTime
  start_elevation : ℚ
  start_azimuth : ℚ
  start_sun_elevation : ℚ
  start_sun_azimuth : ℚ
  max_session_dt : PyDateTime
  max_elevation : ℚ
  max_azimuth : ℚ
  max_sun_elevation : ℚ
  max_sun_azimuth : ℚ
  end_session_dt : PyDateTime
  end_elevation : ℚ
  end_azimuth : ℚ
  end_sun_elevation : ℚ
  end_sun_azimuth : ℚ
  zero_crossing_azimuth_flag : Bool
  deriving DecidableEq, Repr

/-- Python's built-in `abs` on a number. -/
def rat_abs (x : ℚ) : ℚ := if x < 0 then -x else x

/-- The per-session inner loop of `define_session_params`
(communication.py:414-429): track the zero-crossing azimuth flag and the
maximum-elevation sample.  State is `(azimuth_prev, max_elevation,
(max_azimuth, max_session_dt)?, zero_crossing_azimuth_flag)`; the third
component is `none` while `max_session_dt` is unbound.  Python's
`if azimuth_prev:` treats both `None` and an azimuth of exactly `0.0` as
falsy, which the first condition mirrors. -/
def session_max_loop :
    List (PyDateTime × CommParamsQ) → Option ℚ → ℚ →
    Option (ℚ × PyDateTime) → Bool → ℚ × Option (ℚ × PyDateTime) × Bool
  | [], _, max_elevation, maxAzDt, flag => (max_elevation, maxAzDt, flag)
  | (dt, p) :: rest, azimuth_prev, max_elevation, maxAzDt, flag =>
      let azimuth := p.azimuth
      let elevation := p.elevation
      let flag' :=
        match azimuth_prev with
        | some ap =>
            if ap ≠ 0 then
              if rat_abs (ap - azimuth) > 330 then true else flag
            else flag
        | none => flag
      if elevation > max_elevation then
        session_max_loop rest (some azimuth) elevation (some (azimuth, dt)) flag'
      else
        session_max_loop rest (some azimuth) max_elevation maxAzDt flag'

/-- The body of `define_session_params` for one `(start_session,
end_session)` pair (communication.py:395-455): collect the `comm_data`
entries whose instant lies in `[start_session, end_session]`, read the
session's start/end samples (`one_session_params[0]` and `[-1]` raise
`IndexError` on an empty selection), run the max/zero-crossing loop, query
the Sun model (passed in as the function `sun`, returning (elevation,
azimuth)), and key the resulting `SessionParams` under
`start_session.replace(second=0)` — the datetime with its SECONDS field set
to zero and every other field, including microseconds, kept. -/
def session_params_for (comm_data : List (PyDateTime × CommParamsQ))
    (sun : PyDateTime → ℚ × ℚ) (start_session end_session : PyDateTime) :
    Except PyErr (PyDateTime × SessionParams) :=
  let one := comm_data.filter
    (fun p => start_session.ble p.1 && p.1.ble end_session)
  match one.head?, one.getLast? with
  | some firstP, some lastP =>
      let startSun := sun start_session
      let endSun := sun end_session
      match session_max_loop one none (-90) none false with
      | (max_elevation, some (max_azimuth, max_session_dt), zflag) =>
          let maxSun := sun max_session_dt
          .ok ({ start_session with second := 0 },
            { start_session_dt := start_session
              start_elevation := firstP.2.elevation
              start_azimuth := firstP.2.azimuth
              start_sun_elevation := startSun.1
              start_sun_azimuth := startSun.2
              max_session_dt := max_session_dt
              max_elevation := max_elevation
              max_azimuth := max_azimuth
              max_sun_elevation := maxSun.1
              max_sun_azimuth := maxSun.2
              end_session_dt := end_session
              end_elevation := lastP.2.elevation
              end_azimuth := lastP.2.azimuth
              end_sun_elevation := endSun.1
              end_sun_azimuth := endSun.2
              zero_crossing_azimuth_flag := zflag })
      | (_, none, _) => .error .unboundLocalError
  | _, _ => .error .indexError

/-- Recursion over the session list of `define_session_params`. -/
def define_sessions_go (comm_data : List (PyDateTime × CommParamsQ))
    (sun : PyDateTime → ℚ × ℚ) :
    List (PyDateTime × PyDateTime) →
    Except PyErr (List (PyDateTime × SessionParams))
  | [] => .ok []
  | (s, e) :: rest =>
      match session_params_for comm_data sun s e with
      | .error err => .error err
      | .ok q =>
          match define_sessions_go comm_data sun rest with
          | .error err => .error err
          | .ok qs => .ok (q :: qs)

/-- `define_session_params` (communication.py:380-455): run the session
scan over the predicted trajectory (each trajectory instant paired with its
computed visibility) and summarize each session from `comm_data`,
producing the `session_params` mapping in insertion order.  The inputs are
the already-computed trajectory visibility and `comm_data`; the source's
fallback that computes `comm_data` on the fly when it is empty is the
separately embedded `calculate_comm_for_predicted_period`. -/
def define_session_params (pos_visibility : List (PyDateTime × Bool))
    (comm_data : List (PyDateTime × CommParamsQ))
    (sun : PyDateTime → ℚ × ℚ) :
    Except PyErr (List (PyDateTime × SessionParams)) :=
  match calculate_comm_session_times pos_visibility false none false [] none with
  | .error err => .error err
  | .ok session_times => define_sessions_go comm_data sun session_times

instance {ε α : Type} [DecidableEq ε] [DecidableEq α] :
    DecidableEq (Except ε α) := fun
  | .error a, .error b =>
      if h : a = b then .isTrue (by rw [h])
      else .isFalse (fun hc => h (Except.error.inj hc))
  | .error _, .ok _ => .isFalse (fun hc => Except.noConfusion hc)
  | .ok _, .error _ => .isFalse (fun hc => Except.noConfusion hc)
  | .ok a, .ok b =>
      if h : a = b then .isTrue (by rw [h])
      else .isFalse (fun hc => h (Except.ok.inj hc))

/-- One-second-cadence instants used by the synthetic examples. -/
def example_instant (i : ℕ) : PyDateTime := ⟨2024, 1, 1, 0, 0, i, 0⟩

/-- The synthetic trajectory of the pass-detection example: instants at a
one-second cadence paired with their visibility flags. -/
def example_pos_visibility : List (PyDateTime × Bool) :=
  (List.range 8).zip example_visibility |>.map
    (fun p => (example_instant p.1, p.2))

/-- The synthetic `comm_data` of the pass-detection example:
`calculate_comm_for_predicted_period` pops the first trajectory sample
before filling `comm_data`, so entries exist for indices 1..7 only, holding
the example elevations [−0.5, 0.5, 5, 10, 8, 3, −1]. -/
def example_comm_data : List (PyDateTime × CommParamsQ) :=
  [(example_instant 1,
    { elevation := mkRat (-1) 2, azimuth := 180, visibility := false }),
   (example_instant 2,
    { elevation := mkRat 1 2, azimuth := 180, visibility := true }),
   (example_instant 3, { elevation := 5, azimuth := 180, visibility := true }),
   (example_instant 4, { elevation := 10, azimuth := 180, visibility := true }),
   (example_instant 5, { elevation := 8, azimuth := 180, visibility := true }),
   (example_instant 6, { elevation := 3, azimuth := 180, visibility := true }),
   (example_instant 7,
    { elevation := -1, azimuth := 180, visibility := false })]

unseal Rat.sub Rat.add Rat.mul Rat.inv in
/-- C1 (counterexample): on the specification's synthetic elevation
timeline [−1, −0.5, 0.5, 5, 10, 8, 3, −1] with `min_elev = 0`,
`define_session_params` emits exactly one session, whose start is the
sample at index 2 and whose maximum lies at index 4 as the claim says — but
its end is the sample at index 7, not index 6, and the `comm_data` sample
at the session's end instant is NOT visible, refuting both the stated end
index and the stated end-sample visibility. -/
theorem C1_counterexample :
    define_session_params example_pos_visibility example_comm_data
        (fun _ => (0, 0)) =
      .ok [(⟨2024, 1, 1, 0, 0, 0, 0⟩,
        { start_session_dt := example_instant 2
          start_elevation := mkRat 1 2
          start_azimuth := 180
          start_sun_elevation := 0
          start_sun_azimuth := 0
          max_session_dt := example_instant 4
          max_elevation := 10
          max_azimuth := 180
          max_sun_elevation := 0
          max_sun_azimuth := 0
          end_session_dt := example_instant 7
          end_elevation := -1
          end_azimuth := 180
          end_sun_elevation := 0
          end_sun_azimuth := 0
          zero_crossing_azimuth_flag := false })] ∧
    example_instant 7 ≠ example_instant 6 ∧
    example_comm_data.lookup (example_instant 7) =
      some { elevation := -1, azimuth := 180, visibility := false } :=
  ⟨by decide, by decide, by decide⟩

/-- The session key stored by `session_params_for` is the session start
with its seconds field zeroed, and the stored summary's
`start_session_dt` is the session start itself. -/
theorem session_params_for_key (comm_data : List (PyDateTime × CommParamsQ))
    (sun : PyDateTime → ℚ × ℚ) (s e : PyDateTime)
    (q : PyDateTime × SessionParams)
    (h : session_params_for comm_data sun s e = .ok q) :
    q.1 = { q.2.start_session_dt with second := 0 } := by
  simp only [session_params_for] at h
  split at h
  case h_1 firstP lastP heq1 heq2 =>
    split at h
    case h_1 maxEl maxAz maxDt zflag heq3 =>
      cases h
      rfl
    case h_2 => cases h
  case h_2 => cases h

/-- Keys produced by `define_sessions_go` all follow the
`replace(second=0)` scheme. -/
theorem define_sessions_go_key (comm_data : List (PyDateTime × CommParamsQ))
    (sun : PyDateTime → ℚ × ℚ) :
    ∀ (ts : List (PyDateTime × PyDateTime))
      (out : List (PyDateTime × SessionParams)),
      define_sessions_go comm_data sun ts = .ok out →
      ∀ q ∈ out, q.1 = { q.2.start_session_dt with second := 0 } := by
  intro ts
  induction ts with
  | nil =>
    intro out h q hq
    cases h
    cases hq
  | cons se rest ih =>
    intro out h q hq
    obtain ⟨s, e⟩ := se
    unfold define_sessions_go at h
    split at h
    case h_1 => cases h
    case h_2 q0 heq0 =>
      split at h
      case h_1 => cases h
      case h_2 qs heqs =>
        cases h
        rcases List.mem_cons.mp hq with h1 | h1
        · subst h1
          exact session_params_for_key comm_data sun s e q heq0
        · exact ih qs heqs q h1

/-- C7 (amended): every session produced by `define_session_params` is
stored in the sessions mapping under the key
`start_session.replace(second=0)`: the session's start instant with its
SECONDS field set to zero and all other fields — including the
microseconds — preserved.  This is not a truncation to whole seconds: a
start instant with a non-zero seconds field or non-zero microseconds is
keyed differently from its whole-second truncation (see the accompanying
counterexample theorem). -/
theorem C7_session_key (pos_visibility : List (PyDateTime × Bool))
    (comm_data : List (PyDateTime × CommParamsQ))
    (sun : PyDateTime → ℚ × ℚ)
    (out : List (PyDateTime × SessionParams))
    (h : define_session_params pos_visibility comm_data sun = .ok out) :
    ∀ q ∈ out, q.1 = { q.2.start_session_dt with second := 0 } := by
  unfold define_session_params at h
  split at h
  case h_1 => cases h
  case h_2 session_times heq =>
    exact define_sessions_go_key comm_data sun session_times out h

/-- A session start instant with a non-zero seconds field and non-zero
microseconds, used to separate the stored key `replace(second=0)` from the
whole-second truncation the claim asserts. -/
def c7_start : PyDateTime := ⟨2024, 1, 1, 12, 0, 30, 500000⟩

/-- Trajectory visibility for the session-key counterexample: a single
session that starts at `c7_start`. -/
def c7_pos_visibility : List (PyDateTime × Bool) :=
  [(⟨2024, 1, 1, 12, 0, 29, 500000⟩, false),
   (c7_start, true),
   (⟨2024, 1, 1, 12, 0, 31, 500000⟩, false)]

/-- `comm_data` for the session-key counterexample. -/
def c7_comm_data : List (PyDateTime × CommParamsQ) :=
  [(c7_start, { elevation := 5, azimuth := 180, visibility := true }),
   (⟨2024, 1, 1, 12, 0, 31, 500000⟩,
     { elevation := -1, azimuth := 180, visibility := false })]

/-- The session summary produced for the session-key counterexample. -/
def c7_expected_session : SessionParams :=
  { start_session_dt := c7_start
    start_elevation := 5
    start_azimuth := 180
    start_sun_elevation := 0
    start_sun_azimuth := 0
    max_session_dt := c7_start
    max_elevation := 5
    max_azimuth := 180
    max_sun_elevation := 0
    max_sun_azimuth := 0
    end_session_dt := ⟨2024, 1, 1, 12, 0, 31, 500000⟩
    end_elevation := -1
    end_azimuth := 180
    end_sun_elevation := 0
    end_sun_azimuth := 0
    zero_crossing_azimuth_flag := false }

unseal Rat.sub Rat.add Rat.mul Rat.inv in
/-- Concrete evaluation of `define_session_params` on the session-key
counterexample input. -/
theorem c7_run_eq :
    define_session_params c7_pos_visibility c7_comm_data (fun _ => (0, 0)) =
      .ok [(⟨2024, 1, 1, 12, 0, 0, 500000⟩, c7_expected_session)] := by
  decide

/-- C7 (counterexample): for a session starting at 12:00:30.500000 the
sessions mapping key produced by `define_session_params` is
12:00:00.500000 — the seconds field zeroed, the fractional seconds kept —
whereas the claim's whole-second truncation of the start instant is
12:00:30.000000.  The two differ, refuting the claim. -/
theorem C7_counterexample :
    define_session_params c7_pos_visibility c7_comm_data (fun _ => (0, 0)) =
      .ok [(⟨2024, 1, 1, 12, 0, 0, 500000⟩, c7_expected_session)] ∧
    c7_expected_session.start_session_dt = c7_start ∧
    (⟨2024, 1, 1, 12, 0, 0, 500000⟩ : PyDateTime) ≠
      ⟨2024, 1, 1, 12, 0, 30, 0⟩ :=
  ⟨c7_run_eq, by decide, by decide⟩

/-- Witness for `C7_session_key` at the concrete counterexample input:
the stored key equals the session start with its seconds field zeroed. -/
theorem C7_session_key_witness :
    ((⟨2024, 1, 1, 12, 0, 0, 500000⟩ : PyDateTime), c7_expected_session).1 =
      { ((⟨2024, 1, 1, 12, 0, 0, 500000⟩ : PyDateTime),
          c7_expected_session).2.start_session_dt with second := 0 } :=
  C7_session_key c7_pos_visibility c7_comm_data (fun _ => (0, 0))
    [(⟨2024, 1, 1, 12, 0, 0, 500000⟩, c7_expected_session)]
    c7_run_eq
    (⟨2024, 1, 1, 12, 0, 0, 500000⟩, c7_expected_session) (by simp)

/-! ## Registry checks and point-in-time queries

`Orbitron` (orbitron.py) keeps three mappings keyed by station name:
`stations`, `satellites` and `comms`.  For the setup checks and the query
operations only registry membership and the per-comm `comm_data` mapping
matter, so the state below records station names, the NORAD IDs set up per
station, and each comm's `comm_data`. -/
structure OrbitronState where
  stations : List String
  satellites : List (String × List ℕ)
  comms : List (String × List (ℕ × List (PyDateTime × CommParamsQ)))

/-- `Orbitron._check_ground_station_setup` (orbitron.py:83-93): raises
`NewOrbitronSetupError` (logged, re-raised) when the station name is not
registered. -/
def check_ground_station_setup (st : OrbitronState) (station_name : String) :
    Except PyErr Unit :=
  if station_name ∈ st.stations then .ok ()
  else .error .newOrbitronSetupError

/-- `Orbitron._check_satellite_setup_for_ground_station`
(orbitron.py:95-109): ground-station check, then membership of the NORAD ID
in `self.satellites[station_name]` (that lookup itself raises `KeyError`
when the station has no satellites entry). -/
def check_satellite_setup_for_ground_station (st : OrbitronState)
    (station_name : String) (norad_id : ℕ) : Except PyErr Unit :=
  match check_ground_station_setup st station_name with
  | .error e => .error e
  | .ok _ =>
      match st.satellites.lookup station_name with
      | none => .error .keyError
      | some sats =>
          if norad_id ∈ sats then .ok ()
          else .error .newOrbitronSetupError

/-- `Orbitron._check_comm_setup_for_satellite_with_ground_station`
(orbitron.py:111-127): both preceding checks, then membership of the NORAD
ID among `self.comms[station_name]`'s keys. -/
def check_comm_setup_for_satellite_with_ground_station (st : OrbitronState)
    (station_name : String) (norad_id : ℕ) : Except PyErr Unit :=
  match check_ground_station_setup st station_name with
  | .error e => .error e
  | .ok _ =>
      match check_satellite_setup_for_ground_station st station_name norad_id with
      | .error e => .error e
      | .ok _ =>
          match st.comms.lookup station_name with
          | none => .error .keyError
          | some comms =>
              if norad_id ∈ comms.map (fun c => c.1) then .ok ()
              else .error .newOrbitronSetupError

/-- `Orbitron._check_comm_prediction_data` (orbitron.py:129-142).  The
`try` block raises `NewOrbitronDataError` when `comm_data` is empty, but
the matching `except NewOrbitronDataError:` clause only logs
(`logger.exception`) and — unlike the three setup checks — does NOT
re-raise, so the error never leaves this method: after a successful comm
setup check the method returns normally whether or not `comm_data` is
empty.  The `_swallowed` value records the raised-and-caught error. -/
def check_comm_prediction_data (st : OrbitronState) (station_name : String)
    (norad_id : ℕ) : Except PyErr Unit :=
  match check_comm_setup_for_satellite_with_ground_station st station_name
      norad_id with
  | .error e => .error e
  | .ok _ =>
      match st.comms.lookup station_name with
      | none => .error .keyError
      | some comms =>
          match comms.lookup norad_id with
          | none => .error .keyError
          | some comm_data =>
              let _swallowed : Except PyErr Unit :=
                if comm_data.isEmpty then .error .newOrbitronDataError
                else .ok ()
              .ok ()

/-- `Orbitron.get_azimuth_elevation` (orbitron.py:391-435): after
`_check_comm_prediction_data`, truncate the requested instant to whole
seconds (`dt.replace(microsecond=0)`) and look it up in `comm_data`; a
`KeyError` is caught and `[dt, None, None]` returned.  The `dt` argument
models the requested instant (the source defaults it to the current UTC
time when absent). -/
def get_azimuth_elevation (st : OrbitronState) (station_name : String)
    (norad_id : ℕ) (dt : PyDateTime) :
    Except PyErr (PyDateTime × Option ℚ × Option ℚ) :=
  match check_comm_prediction_data st station_name norad_id with
  | .error e => .error e
  | .ok _ =>
      let dt := { dt with microsecond := 0 }
      match (st.comms.lookup station_name).bind
          (fun comms => comms.lookup norad_id) with
      | none => .ok (dt, none, none)
      | some comm_data =>
          match comm_data.lookup dt with
          | some point => .ok (dt, some point.azimuth, some point.elevation)
          | none => .ok (dt, none, none)

/-- `Orbitron.get_frequencies` (orbitron.py:437-481): same shape as
`get_azimuth_elevation`, returning the sample's uplink and downlink. -/
def get_frequencies (st : OrbitronState) (station_name : String)
    (norad_id : ℕ) (dt : PyDateTime) :
    Except PyErr (PyDateTime × Option ℚ × Option ℚ) :=
  match check_comm_prediction_data st station_name norad_id with
  | .error e => .error e
  | .ok _ =>
      let dt := { dt with microsecond := 0 }
      match (st.comms.lookup station_name).bind
          (fun comms => comms.lookup norad_id) with
      | none => .ok (dt, none, none)
      | some comm_data =>
          match comm_data.lookup dt with
          | some point => .ok (dt, point.uplink, point.downlink)
          | none => .ok (dt, none, none)

/-- `Orbitron.get_data` (orbitron.py:483-536): same shape, returning
azimuth, elevation, uplink and downlink. -/
def get_data (st : OrbitronState) (station_name : String) (norad_id : ℕ)
    (dt : PyDateTime) :
    Except PyErr (PyDateTime × Option ℚ × Option ℚ × Option ℚ × Option ℚ) :=
  match check_comm_prediction_data st station_name norad_id with
  | .error e => .error e
  | .ok _ =>
      let dt := { dt with microsecond := 0 }
      match (st.comms.lookup station_name).bind
          (fun comms => comms.lookup norad_id) with
      | none => .ok (dt, none, none, none, none)
      | some comm_data =>
          match comm_data.lookup dt with
          | some point =>
              .ok (dt, some point.azimuth, some point.elevation,
                point.uplink, point.downlink)
          | none => .ok (dt, none, none, none, none)

/-- A registered (station, satellite) pair with a comm binding whose
`comm_data` is empty. -/
def c2_state : OrbitronState :=
  { stations := ["Samara"]
    satellites := [("Samara", [57173])]
    comms := [("Samara", [(57173, [])])] }

/-- C2 (code bug): for a registered (station, satellite) pair whose comm
binding has an empty `comm_data`, none of the query operations fails with
`NewOrbitronDataError`: `_check_comm_prediction_data` raises it inside a
`try` whose `except` clause only logs and does not re-raise (orbitron.py
lines 134-142), unlike the three setup checks, and against the query
methods' docstrings ("Raises: ... NewOrbitronDataError: If communication
... hasn't prediction").  Each query then takes its `KeyError` path and
returns the requested instant with `None` fields. -/
theorem C2_no_prediction_error_swallowed :
    check_comm_prediction_data c2_state "Samara" 57173 = .ok () ∧
    get_azimuth_elevation c2_state "Samara" 57173 ⟨2024, 1, 1, 0, 0, 0, 123456⟩ =
      .ok (⟨2024, 1, 1, 0, 0, 0, 0⟩, none, none) ∧
    get_frequencies c2_state "Samara" 57173 ⟨2024, 1, 1, 0, 0, 0, 123456⟩ =
      .ok (⟨2024, 1, 1, 0, 0, 0, 0⟩, none, none) ∧
    get_data c2_state "Samara" 57173 ⟨2024, 1, 1, 0, 0, 0, 123456⟩ =
      .ok (⟨2024, 1, 1, 0, 0, 0, 0⟩, none, none, none, none) :=
  ⟨by decide, by decide, by decide, by decide⟩

/-! ## Geometry layer over the reals

Coordinates, angles and frequencies are floats in the source; they are
embedded over `ℝ`, with `Real.sqrt`, `Real.sin`/`Real.cos`/`Real.arcsin`
and `Complex.arg` standing for `math.sqrt`, the trigonometric functions and
`math.atan2`. -/

/-- `SatPosition` (satellite.py:19-34): an ECEF position of the satellite
center of mass, metres. -/
structure SatPosition where
  x : ℝ
  y : ℝ
  z : ℝ

/-- `StationPosition` (ground_station.py:9-31): ECEF coordinates (m) plus
geodetic longitude/latitude (rad) and altitude (m). -/
structure StationPosition where
  x : ℝ
  y : ℝ
  z : ℝ
  lam : ℝ
  phi : ℝ
  alt : ℝ

/-- `GroundStation` (ground_station.py:34-78): position, minimal elevation
angle (radians, converted from the constructor's degrees) and name. -/
structure GroundStation where
  pos : StationPosition
  elevation_min : ℝ
  name : String

/-- `math.radians`. -/
noncomputable def radians (deg : ℝ) : ℝ := deg * Real.pi / 180

/-- `math.degrees`. -/
noncomputable def degrees (rad : ℝ) : ℝ := rad * 180 / Real.pi

/-- `math.atan2(y, x)`, embedded as the argument of the complex number
`x + i·y` (range `(−π, π]`, `atan2 0 0 = 0`). -/
noncomputable def atan2 (y x : ℝ) : ℝ := Complex.arg ⟨x, y⟩

/-- `GroundStation._R_ECV` (= `Satellite._R_ECV`): WGS-84 equatorial
radius, m. -/
def R_ECV : ℝ := 6378136

/-- `GroundStation._R_POL`: polar radius, m. -/
noncomputable def R_POL : ℝ := 6356752.3

/-- `GroundStation._E_SQUARE = 1 - _R_POL**2 / _R_ECV**2`. -/
noncomputable def E_SQUARE : ℝ := 1 - R_POL ^ 2 / R_ECV ^ 2

/-- `GroundStation._F = 1 - _R_POL / _R_ECV`. -/
noncomputable def F_FLAT : ℝ := 1 - R_POL / R_ECV

/-- `GroundStation._transform_geodetic_to_ecef` (ground_station.py:80-102):
geodetic (λ rad, φ rad, h m) to ECEF. -/
noncomputable def transform_geodetic_to_ecef (geod : ℝ × ℝ × ℝ) : ℝ × ℝ × ℝ :=
  let N := R_ECV / Real.sqrt (1 - E_SQUARE * Real.sin geod.2.1 ^ 2)
  let x := (N + geod.2.2) * Real.cos geod.2.1 * Real.cos geod.1
  let y := (N + geod.2.2) * Real.cos geod.2.1 * Real.sin geod.1
  let z := ((1 - F_FLAT) ^ 2 * N + geod.2.2) * Real.sin geod.2.1
  (x, y, z)

/-- `GroundStation.__init__` (ground_station.py:49-78): the constructor
takes longitude and latitude in DEGREES and altitude in metres, converts
the angles to radians, derives the ECEF position, and stores the minimal
elevation angle converted from degrees to radians. -/
noncomputable def groundStationInit (position : ℝ × ℝ × ℝ)
    (elevation_min : ℝ) (name : String) : GroundStation :=
  let lam := radians position.1
  let phi := radians position.2.1
  let alt := position.2.2
  let ecef := transform_geodetic_to_ecef (lam, phi, alt)
  { pos :=
      { x := ecef.1, y := ecef.2.1, z := ecef.2.2
        lam := lam, phi := phi, alt := alt }
    elevation_min := radians elevation_min
    name := name }

/-- The `get_setuped_stations` branch of
`OrbitronTcpServer.handle_request_message` (orbitron_tcp_server.py:143-153):
for each registered station the reply reports
`station.pos.lam`, `station.pos.phi`, `station.pos.alt` and
`station.elevation_min` — the stored values, with no radian → degree
conversion — as (longitude, latitude, altitude, elevation). -/
def get_setuped_stations (stations : List (String × GroundStation)) :
    List (String × (ℝ × ℝ × ℝ × ℝ)) :=
  stations.map (fun p =>
    (p.1, (p.2.pos.lam, p.2.pos.phi, p.2.pos.alt, p.2.elevation_min)))

/-- C9 (amended): the `get_setuped_stations` reply reports each station's
longitude, latitude and minimal elevation in RADIANS — the values stored in
`StationPosition` — and the altitude in metres; the server performs the
degree → radian conversion on the way IN (`GroundStation.__init__`), but no
radian → degree conversion on the way out, so the coordinates sent over the
wire by this reply are not in degrees. -/
theorem C9_station_reply_in_radians (lon lat alt min_elev : ℝ)
    (name : String) :
    get_setuped_stations [(name, groundStationInit (lon, lat, alt)
        min_elev name)] =
      [(name, (radians lon, radians lat, alt, radians min_elev))] := by
  simp [get_setuped_stations, groundStationInit]

/-- C9 (counterexample): a station registered with longitude 90° and
minimal elevation 45° is reported by `get_setuped_stations` with longitude
`π/2 ≈ 1.5708` (not 90) and elevation `π/4` (not 45): the reply is in
radians, refuting the claim that every coordinate on the wire is in
degrees. -/
theorem C9_counterexample :
    ∃ reply : ℝ × ℝ × ℝ × ℝ,
      get_setuped_stations
          [("Samara", groundStationInit (90, 0, 137) 45 "Samara")] =
        [("Samara", reply)] ∧
      reply.1 ≠ 90 ∧ reply.2.2.2 ≠ 45 := by
  refine ⟨(radians 90, radians 0, 137, radians 45), ?_, ?_, ?_⟩
  · simp [get_setuped_stations, groundStationInit]
  · have hpi : Real.pi < 3.15 := Real.pi_lt_d2
    have : radians 90 = Real.pi / 2 := by
      simp only [radians]
      ring
    rw [this]
    intro hcon
    nlinarith
  · have hpi : Real.pi < 3.15 := Real.pi_lt_d2
    have : radians 45 = Real.pi / 4 := by
      simp only [radians]
      ring
    rw [this]
    intro hcon
    nlinarith

/-! ## Satellite TLE state and `predict_cm` -/

/-- The `Orbital` object produced by `Satellite._process_tle`
(satellite.py:143-151) from the TLE lines.  Only its existence and Python
truthiness matter to the claims. -/
structure Orbital where
  line_1 : String
  line_2 : String

/-- Python truthiness of an `Orbital` instance: a class without `__bool__`
or `__len__` is always truthy, so `not self.orbital` is always `False` once
the attribute exists. -/
def orbital_truthy (_ : Orbital) : Bool := true

/-- `Satellite` (satellite.py:37-93): NORAD ID, optional uplink/downlink
frequencies, and the `orbital` attribute, which `__init__` never assigns —
it is created only by the successful TLE setup paths
(`setup_tle_by_file` / `setup_tle_by_spacetrack` / `setup_tle_by_str`).
`orbital = none` models the attribute not existing; the predicted
trajectory `pos_ecef` (instant → `SatPosition`) is likewise only assigned
by `predict_cm`. -/
structure Satellite where
  norad_id : ℕ
  uplink_freq : Option ℝ := none
  downlink_freq : Option ℝ := none
  orbital : Option Orbital := none
  pos_ecef : Option (List (ℤ × SatPosition)) := none

/-- The TLE guard of `Satellite.predict_cm` (satellite.py:510-512):
`if not self.orbital: raise TLEDataError()`.  Reading `self.orbital` on a
satellite that never had a TLE set up raises `AttributeError` (the
attribute does not exist); when the attribute exists it holds an `Orbital`
instance, which is always truthy, so the `TLEDataError` branch can never
run.  The propagation body that follows the guard is embedded separately
(`calculate_comm_for_predicted_period` consumes its `pos_ecef` output). -/
def predict_cm_tle_guard (sat : Satellite) : Except PyErr Unit :=
  match sat.orbital with
  | none => .error .attributeError
  | some orb =>
      if !(orbital_truthy orb) then .error .tleDataError
      else .ok ()

/-- The `ResponseType` enum (TcpServerABC.py:23-33). -/
inductive ResponseType where
  | NONE | CONFIGURE | PREDICT | TLE_UPDATE | SYNC | RADAR | GET_DATA | ERROR
  deriving DecidableEq, Repr

/-- The integer wire value of each `ResponseType`. -/
def ResponseType.val : ResponseType → ℕ
  | .NONE => 0
  | .CONFIGURE => 1
  | .PREDICT => 2
  | .TLE_UPDATE => 3
  | .SYNC => 4
  | .RADAR => 5
  | .GET_DATA => 6
  | .ERROR => 7

/-- The error handling of `TCPServer._client_handler`
(TcpServerABC.py:110-117): `except TCPServerBodyRequestError` and the
catch-all `except Exception` both reply `ResponseType.ERROR`, so ANY
exception escaping a request handler is surfaced to the client as
status 7. -/
def client_handler_status (resp : Except PyErr ResponseType) : ℕ :=
  match resp with
  | .ok r => r.val
  | .error _ => ResponseType.ERROR.val

/-- C8 (code bug): invoking `predict_cm` on a satellite on which no TLE was
ever set up fails — but with `AttributeError` (reading the non-existent
`self.orbital` attribute), not with the `TLEDataError` the claim and the
method's own docstring state; indeed `TLEDataError` is unreachable in
`predict_cm` for EVERY satellite, because an existing `orbital` attribute
holds a truthy object.  The server's catch-all still surfaces the
`AttributeError` to the client as status 7. -/
theorem C8_predict_cm_attribute_error (sat : Satellite)
    (h : sat.orbital = none) :
    predict_cm_tle_guard sat = .error .attributeError ∧
    PyErr.attributeError ≠ PyErr.tleDataError ∧
    (∀ s : Satellite, predict_cm_tle_guard s ≠ .error .tleDataError) ∧
    client_handler_status (.error .attributeError) = 7 := by
  refine ⟨?_, by decide, ?_, rfl⟩
  · unfold predict_cm_tle_guard
    rw [h]
  · intro s
    unfold predict_cm_tle_guard
    match s.orbital with
    | none => simp
    | some orb => simp [orbital_truthy]

/-- Witness for `C8_predict_cm_attribute_error`: the freshly constructed
satellite with NORAD ID 57173 and no TLE. -/
theorem C8_predict_cm_attribute_error_witness :
    predict_cm_tle_guard { norad_id := 57173 } = .error .attributeError ∧
    PyErr.attributeError ≠ PyErr.tleDataError ∧
    (∀ s : Satellite, predict_cm_tle_guard s ≠ .error .tleDataError) ∧
    client_handler_status (.error .attributeError) = 7 :=
  C8_predict_cm_attribute_error { norad_id := 57173 } rfl

/-- `SatelliteStationComm._R_E` (communication.py:129): the mean Earth
radius used by the visibility test, m. -/
def R_E : ℝ := 6371302

/-- `SatelliteStationComm._ALF_CZJ` (communication.py:131). -/
noncomputable def ALF_CZJ : ℝ := 1 / 298.257223563

/-- `SatelliteStationComm._c` (communication.py:132): speed of light,
m/s. -/
def c_light : ℝ := 299792458

/-- `SatelliteStationComm._transform_ecef_to_geodetic`
(communication.py:150-175): returns (longitude rad, latitude rad,
altitude m). -/
noncomputable def transform_ecef_to_geodetic (pos_ecef : SatPosition) :
    ℝ × ℝ × ℝ :=
  let phi := atan2 pos_ecef.z (Real.sqrt (pos_ecef.x ^ 2 + pos_ecef.y ^ 2))
  let lam := atan2 pos_ecef.y pos_ecef.x
  let r_g := Real.sqrt (pos_ecef.x ^ 2 + pos_ecef.y ^ 2 + pos_ecef.z ^ 2)
  let R_z := R_ECV * (1 - ALF_CZJ * Real.sin phi ^ 2)
  (lam, phi, r_g - R_z)

/-- `SatelliteStationComm._calculate_visibility` (communication.py:177-207)
computes `dot(r_sat − r_stn, r_stn) − |r_sat − r_stn| · R_E ·
sin(elevation_min)`; the sample is visible when this value is positive. -/
noncomputable def visibility_value (station : GroundStation)
    (xyz_ecef_sat : SatPosition) : ℝ :=
  let r1x := xyz_ecef_sat.x - station.pos.x
  let r1y := xyz_ecef_sat.y - station.pos.y
  let r1z := xyz_ecef_sat.z - station.pos.z
  let dot_r1r2 := r1x * station.pos.x + r1y * station.pos.y +
    r1z * station.pos.z
  let mod_r1 := Real.sqrt (r1x ^ 2 + r1y ^ 2 + r1z ^ 2)
  dot_r1r2 - mod_r1 * R_E * Real.sin station.elevation_min

/-- The boolean result of `_calculate_visibility`: `visibility > 0`. -/
noncomputable def calculate_visibility (station : GroundStation)
    (xyz_ecef_sat : SatPosition) : Prop :=
  0 < visibility_value station xyz_ecef_sat

/-- `SatelliteStationComm._calculate_azimuth_elevation`
(communication.py:249-287): azimuth and elevation between satellite and
ground station, both in DEGREES. -/
noncomputable def calculate_azimuth_elevation (station : GroundStation)
    (xyz_ecef_sat : SatPosition) : ℝ × ℝ :=
  let geod := transform_ecef_to_geodetic xyz_ecef_sat
  let delta := geod.1 - station.pos.lam
  let Az0 := atan2 (Real.sin delta * Real.cos geod.2.1)
    (Real.cos station.pos.phi * Real.sin geod.2.1 -
      Real.sin station.pos.phi * Real.cos geod.2.1 * Real.cos delta)
  let Az := if Az0 < 0 then Az0 + 2 * Real.pi else Az0
  let r1x := xyz_ecef_sat.x - station.pos.x
  let r1y := xyz_ecef_sat.y - station.pos.y
  let r1z := xyz_ecef_sat.z - station.pos.z
  let dot_r1r2 := r1x * station.pos.x + r1y * station.pos.y +
    r1z * station.pos.z
  let mod_r1 := Real.sqrt (r1x ^ 2 + r1y ^ 2 + r1z ^ 2)
  let mod_r2 := Real.sqrt (station.pos.x ^ 2 + station.pos.y ^ 2 +
    station.pos.z ^ 2)
  let sin_El := dot_r1r2 / (mod_r1 * mod_r2)
  let El := Real.arcsin sin_El
  (degrees Az, degrees El)

/-- Straight-line range from the ground station to a satellite position
(the expression `((x₁−xₛ)² + (y₁−yₛ)² + (z₁−zₛ)²) ** 0.5` inlined twice in
`_calculate_uplink_downlink`). -/
noncomputable def range_to_station (station : GroundStation)
    (p : SatPosition) : ℝ :=
  Real.sqrt ((p.x - station.pos.x) ^ 2 + (p.y - station.pos.y) ^ 2 +
    (p.z - station.pos.z) ^ 2)

/-- `SatelliteStationComm._calculate_uplink_downlink`
(communication.py:209-247): `v = r₂ − r₁` is the range change between the
two consecutive positions (positive when receding).  Python's
`if self.satellite.uplink_freq:` is a truthiness test: a frequency that is
`None` OR exactly `0` yields `None` for that link; otherwise
`uplink = f/(1 − v/c)` and `downlink = f/(1 + v/c)`. -/
noncomputable def calculate_uplink_downlink (sat : Satellite)
    (station : GroundStation) (xyz_ecef_sat1 xyz_ecef_sat2 : SatPosition) :
    Option ℝ × Option ℝ :=
  let r1 := range_to_station station xyz_ecef_sat1
  let r2 := range_to_station station xyz_ecef_sat2
  let v := r2 - r1
  let uplink : Option ℝ :=
    match sat.uplink_freq with
    | some f => if f = 0 then none else some (f / (1 - v / c_light))
    | none => none
  let downlink : Option ℝ :=
    match sat.downlink_freq with
    | some f => if f = 0 then none else some (f / (1 + v / c_light))
    | none => none
  (uplink, downlink)

/-- `CommParams` (communication.py:14-39): the per-instant communication
sample stored in `comm_data` by the geometric pipeline. -/
structure CommParams where
  pos_sat_ecef : SatPosition
  elevation : ℝ
  azimuth : ℝ
  visibility : Prop
  uplink : Option ℝ
  downlink : Option ℝ

/-- Python dictionary assignment `d[k] = v` on an association list:
replace the entry when the key exists, append otherwise. -/
def dict_set {κ β : Type} [DecidableEq κ] (l : List (κ × β)) (k : κ)
    (v : β) : List (κ × β) :=
  if l.any (fun p => decide (p.1 = k)) then
    l.map (fun p => if p.1 = k then (k, v) else p)
  else l ++ [(k, v)]

/-- The loop of `calculate_comm_for_predicted_period`
(communication.py:357-372): for each remaining trajectory sample compute
look angles, Doppler links from the previous position, and visibility, and
assign the `CommParams` into `comm_data`. -/
noncomputable def calculate_comm_loop (sat : Satellite)
    (station : GroundStation) :
    List (ℤ × SatPosition) → SatPosition → List (ℤ × CommParams) →
    List (ℤ × CommParams)
  | [], _, comm_data => comm_data
  | (dt, pos_ecef_sat) :: rest, prev_pos_ecef_sat, comm_data =>
      let azel := calculate_azimuth_elevation station pos_ecef_sat
      let ud := calculate_uplink_downlink sat station prev_pos_ecef_sat
        pos_ecef_sat
      calculate_comm_loop sat station rest pos_ecef_sat
        (dict_set comm_data dt
          { pos_sat_ecef := pos_ecef_sat
            elevation := azel.2
            azimuth := azel.1
            visibility := calculate_visibility station pos_ecef_sat
            uplink := ud.1
            downlink := ud.2 })

/-- `SatelliteStationComm.calculate_comm_for_predicted_period`
(communication.py:339-378).  The first trajectory sample is POPPED from
`satellite.pos_ecef` (`prev_dt = list(keys)[0]; pos_ecef.pop(prev_dt)`) and
used only as the Doppler predecessor; `comm_data` receives entries for the
remaining instants.  An empty trajectory raises `IndexError` at
`list(...)[0]`; when the `pos_ecef` attribute does not exist the source
falls back to `self.satellite.predict_cm()` (propagator, outside this
embedding), modelled as the explicit `predictFallback` marker. -/
noncomputable def calculate_comm_for_predicted_period (sat : Satellite)
    (station : GroundStation) (comm_data : List (ℤ × CommParams)) :
    Except PyErr (Satellite × List (ℤ × CommParams)) :=
  match sat.pos_ecef with
  | none => .error .predictFallback
  | some [] => .error .indexError
  | some ((_d0, p0) :: rest) =>
      .ok ({ sat with pos_ecef := some rest },
        calculate_comm_loop sat station rest p0 comm_data)

/-- Assigning a fresh key appends the entry. -/
theorem dict_set_not_mem {κ β : Type} [DecidableEq κ]
    (l : List (κ × β)) (k : κ) (v : β)
    (h : k ∉ l.map (fun p => p.1)) : dict_set l k v = l ++ [(k, v)] := by
  unfold dict_set
  rw [if_neg]
  simp only [List.any_eq_true, decide_eq_true_eq, not_exists, not_and]
  intro p hp hpk
  exact h (List.mem_map.mpr ⟨p, hp, hpk⟩)

/-- Keys filled in by the `calculate_comm_for_predicted_period` loop: with
pairwise distinct instants the loop extends `comm_data` by exactly the
processed instants, in order. -/
theorem calculate_comm_loop_keys (sat : Satellite)
    (station : GroundStation) :
    ∀ (l : List (ℤ × SatPosition)) (prev : SatPosition)
      (comm_data : List (ℤ × CommParams)),
      (comm_data.map (fun p => p.1) ++ l.map (fun p => p.1)).Nodup →
      (calculate_comm_loop sat station l prev comm_data).map
          (fun p => p.1) =
        comm_data.map (fun p => p.1) ++ l.map (fun p => p.1) := by
  intro l
  induction l with
  | nil =>
    intro prev comm_data _
    simp [calculate_comm_loop]
  | cons hd rest ih =>
    intro prev comm_data hnd
    obtain ⟨dt, pos⟩ := hd
    have hdt_not : dt ∉ comm_data.map (fun p => p.1) := by
      intro hmem
      exact (List.nodup_append.mp hnd).2.2 hmem (by simp)
    rw [calculate_comm_loop,
      dict_set_not_mem comm_data dt _ hdt_not]
    rw [ih pos _ ?_]
    · simp
    · simp only [List.map_append, List.map_cons, List.map_nil]
      have : comm_data.map (fun p => p.1) ++ [dt] ++
          rest.map (fun p => p.1) =
          comm_data.map (fun p => p.1) ++ dt ::
            rest.map (fun p => p.1) := by
        simp
      rw [this]
      simpa using hnd

/-- C10: `calculate_comm_for_predicted_period` removes the first sample of
the predicted trajectory: for a trajectory whose first instant is `d0`
followed by `rest` (all instants distinct, as dictionary keys are), the
call succeeds, afterwards `pos_ecef` is exactly `rest` (so it no longer
contains `d0`), and starting from an empty `comm_data` the communication
mapping receives entries for exactly the remaining instants — in
particular no communication sample exists at the prediction start
instant. -/
theorem C10_first_sample_popped (sat : Satellite) (station : GroundStation)
    (d0 : ℤ) (p0 : SatPosition) (rest : List (ℤ × SatPosition))
    (hpos : sat.pos_ecef = some ((d0, p0) :: rest))
    (hnd : (((d0, p0) :: rest).map (fun p => p.1)).Nodup) :
    ∃ (sat' : Satellite) (comm' : List (ℤ × CommParams)),
      calculate_comm_for_predicted_period sat station [] =
        .ok (sat', comm') ∧
      sat'.pos_ecef = some rest ∧
      comm'.map (fun p => p.1) = rest.map (fun p => p.1) ∧
      d0 ∉ comm'.map (fun p => p.1) := by
  have hnd' : (d0 :: rest.map (fun p => p.1)).Nodup := by simpa using hnd
  have hrest_nd : (rest.map (fun p => p.1)).Nodup :=
    List.Nodup.of_cons hnd'
  have hd0 : d0 ∉ rest.map (fun p => p.1) := (List.nodup_cons.mp hnd').1
  have hkeys := calculate_comm_loop_keys sat station rest p0 []
    (by simpa using hrest_nd)
  refine ⟨{ sat with pos_ecef := some rest },
    calculate_comm_loop sat station rest p0 [], ?_, rfl, ?_, ?_⟩
  · unfold calculate_comm_for_predicted_period
    rw [hpos]
  · simpa using hkeys
  · intro hmem
    rw [hkeys] at hmem
    simp only [List.map_nil, List.nil_append] at hmem
    exact hd0 hmem

/-- Remaining trajectory samples of the concrete witness run. -/
noncomputable def c10_rest : List (ℤ × SatPosition) :=
  [(1, ⟨7000100, 0, 0⟩), (2, ⟨7000200, 0, 0⟩)]

/-- The Samara ground station of the source's usage examples. -/
noncomputable def samara_station : GroundStation :=
  groundStationInit (50.17763, 53.21204, 137) 0 "Samara"

/-- A satellite with a three-sample predicted trajectory. -/
noncomputable def c10_sat : Satellite :=
  { norad_id := 57173
    uplink_freq := some 437398600
    downlink_freq := some 437398600
    pos_ecef := some ((0, ⟨7000000, 0, 0⟩) :: c10_rest) }

/-- Witness for `C10_first_sample_popped` on a concrete three-sample
trajectory. -/
theorem C10_first_sample_popped_witness :
    ∃ (sat' : Satellite) (comm' : List (ℤ × CommParams)),
      calculate_comm_for_predicted_period c10_sat samara_station [] =
        .ok (sat', comm') ∧
      sat'.pos_ecef = some c10_rest ∧
      comm'.map (fun p => p.1) = c10_rest.map (fun p => p.1) ∧
      (0 : ℤ) ∉ comm'.map (fun p => p.1) :=
  C10_first_sample_popped c10_sat samara_station 0 ⟨7000000, 0, 0⟩ c10_rest
    rfl (by decide)

/-- C5 (amended): for the Doppler computation of
`_calculate_uplink_downlink`, with `v` the change in station-to-satellite
range between the previous and the current sample (positive when
receding): when the satellite's uplink frequency is set AND non-zero the
uplink is `f_up/(1 − v/c)`; when it is unset OR exactly zero (Python's
falsy `0.0`) the uplink is null; and dually the downlink is
`f_down/(1 + v/c)` when set and non-zero, null otherwise. -/
theorem C5_doppler_links (sat : Satellite) (station : GroundStation)
    (p1 p2 : SatPosition) :
    (∀ f : ℝ, sat.uplink_freq = some f → f ≠ 0 →
      (calculate_uplink_downlink sat station p1 p2).1 =
        some (f / (1 - (range_to_station station p2 -
          range_to_station station p1) / c_light))) ∧
    (sat.uplink_freq = none ∨ sat.uplink_freq = some 0 →
      (calculate_uplink_downlink sat station p1 p2).1 = none) ∧
    (∀ f : ℝ, sat.downlink_freq = some f → f ≠ 0 →
      (calculate_uplink_downlink sat station p1 p2).2 =
        some (f / (1 + (range_to_station station p2 -
          range_to_station station p1) / c_light))) ∧
    (sat.downlink_freq = none ∨ sat.downlink_freq = some 0 →
      (calculate_uplink_downlink sat station p1 p2).2 = none) := by
  refine ⟨?_, ?_, ?_, ?_⟩
  · intro f hf hf0
    simp [calculate_uplink_downlink, hf, hf0]
  · intro h
    rcases h with h | h <;> simp [calculate_uplink_downlink, h]
  · intro f hf hf0
    simp [calculate_uplink_downlink, hf, hf0]
  · intro h
    rcases h with h | h <;> simp [calculate_uplink_downlink, h]

/-- A satellite whose configured frequencies are exactly 0 Hz: set, but
falsy for Python's `if self.satellite.uplink_freq:`. -/
noncomputable def c5_zero_sat : Satellite :=
  { norad_id := 57173, uplink_freq := some 0, downlink_freq := some 0 }

/-- C5 (counterexample): with an uplink frequency that is SET but equal to
0, the code computes no uplink at all (Python truthiness treats `0.0` like
`None`), while the claim requires `uplink = f_up/(1 − v/c) = some 0`; the
downlink behaves the same way. -/
theorem C5_counterexample :
    c5_zero_sat.uplink_freq = some 0 ∧
    c5_zero_sat.downlink_freq = some 0 ∧
    calculate_uplink_downlink c5_zero_sat samara_station
        ⟨7000000, 0, 0⟩ ⟨7001000, 0, 0⟩ = (none, none) ∧
    (∀ x : ℝ, (none : Option ℝ) ≠ some x) := by
  refine ⟨rfl, rfl, ?_, fun x h => Option.noConfusion h⟩
  simp [calculate_uplink_downlink, c5_zero_sat]

/-- The elevation component of `_calculate_azimuth_elevation` in closed
form: `degrees(asin(dot(r₁, r₂) / (|r₁|·|r₂|)))` with `r₁` the
station-to-satellite vector and `r₂` the station position. -/
theorem calculate_azimuth_elevation_snd (station : GroundStation)
    (sat : SatPosition) :
    (calculate_azimuth_elevation station sat).2 =
      degrees (Real.arcsin
        (((sat.x - station.pos.x) * station.pos.x +
          (sat.y - station.pos.y) * station.pos.y +
          (sat.z - station.pos.z) * station.pos.z) /
        (Real.sqrt ((sat.x - station.pos.x) ^ 2 +
            (sat.y - station.pos.y) ^ 2 + (sat.z - station.pos.z) ^ 2) *
          Real.sqrt (station.pos.x ^ 2 + station.pos.y ^ 2 +
            station.pos.z ^ 2)))) := rfl

/-- Arithmetic core of the visibility/elevation relation: from
`0 < a·b − |a|·R_E·s` it follows that
`sin(degrees(asin(a·b / (|a|·|b|))) · π/180) · |b| > R_E · s`, for any
vectors `a, b ∈ ℝ³` and any `s`. -/
theorem visibility_sine_aux (a1 a2 a3 b1 b2 b3 s : ℝ)
    (h : 0 < a1 * b1 + a2 * b2 + a3 * b3 -
      Real.sqrt (a1 ^ 2 + a2 ^ 2 + a3 ^ 2) * R_E * s) :
    Real.sin (degrees (Real.arcsin ((a1 * b1 + a2 * b2 + a3 * b3) /
        (Real.sqrt (a1 ^ 2 + a2 ^ 2 + a3 ^ 2) *
          Real.sqrt (b1 ^ 2 + b2 ^ 2 + b3 ^ 2)))) * Real.pi / 180) *
      Real.sqrt (b1 ^ 2 + b2 ^ 2 + b3 ^ 2) > R_E * s := by
  set D := a1 * b1 + a2 * b2 + a3 * b3 with hD
  set m1 := Real.sqrt (a1 ^ 2 + a2 ^ 2 + a3 ^ 2) with hm1def
  set m2 := Real.sqrt (b1 ^ 2 + b2 ^ 2 + b3 ^ 2) with hm2def
  have hm1 : 0 ≤ m1 := Real.sqrt_nonneg _
  have hm2 : 0 ≤ m2 := Real.sqrt_nonneg _
  have hm1sq : m1 ^ 2 = a1 ^ 2 + a2 ^ 2 + a3 ^ 2 :=
    Real.sq_sqrt (by positivity)
  have hm2sq : m2 ^ 2 = b1 ^ 2 + b2 ^ 2 + b3 ^ 2 :=
    Real.sq_sqrt (by positivity)
  have hRE : (0:ℝ) < R_E := by norm_num [R_E]
  have hcs : D ^ 2 ≤ (a1 ^ 2 + a2 ^ 2 + a3 ^ 2) *
      (b1 ^ 2 + b2 ^ 2 + b3 ^ 2) := by
    rw [hD]
    nlinarith [sq_nonneg (a1 * b2 - a2 * b1), sq_nonneg (a1 * b3 - a3 * b1),
      sq_nonneg (a2 * b3 - a3 * b2)]
  have habs : |D| ≤ m1 * m2 := by
    calc |D| = Real.sqrt (D ^ 2) := (Real.sqrt_sq_eq_abs D).symm
    _ ≤ Real.sqrt ((a1 ^ 2 + a2 ^ 2 + a3 ^ 2) *
        (b1 ^ 2 + b2 ^ 2 + b3 ^ 2)) := Real.sqrt_le_sqrt hcs
    _ = m1 * m2 := Real.sqrt_mul (by positivity) _
  rcases eq_or_lt_of_le hm2 with hm2z | hm2pos
  · -- the station sits at the ECEF origin: the dot product vanishes
    have hsum : b1 ^ 2 + b2 ^ 2 + b3 ^ 2 = 0 := by
      have h2 := hm2sq
      rw [← hm2z] at h2
      simpa using h2.symm
    have hb1z : b1 = 0 := by
      have h1 : b1 ^ 2 ≤ 0 := by
        linarith only [hsum, sq_nonneg b2, sq_nonneg b3]
      exact pow_eq_zero_iff two_ne_zero |>.mp
        (le_antisymm h1 (sq_nonneg b1))
    have hb2z : b2 = 0 := by
      have h1 : b2 ^ 2 ≤ 0 := by
        linarith only [hsum, sq_nonneg b1, sq_nonneg b3]
      exact pow_eq_zero_iff two_ne_zero |>.mp
        (le_antisymm h1 (sq_nonneg b2))
    have hb3z : b3 = 0 := by
      have h1 : b3 ^ 2 ≤ 0 := by
        linarith only [hsum, sq_nonneg b1, sq_nonneg b2]
      exact pow_eq_zero_iff two_ne_zero |>.mp
        (le_antisymm h1 (sq_nonneg b3))
    have hDz : D = 0 := by rw [hD, hb1z, hb2z, hb3z]; ring
    rw [← hm2z, mul_zero]
    rw [hDz] at h
    by_contra hcon
    push_neg at hcon
    have hassoc : m1 * R_E * s = m1 * (R_E * s) := mul_assoc _ _ _
    linarith only [h, mul_nonneg hm1 hcon, hassoc]
  · rcases eq_or_lt_of_le hm1 with hm1z | hm1pos
    · -- satellite at the station: the visibility value is 0, so no input
      have hsum : a1 ^ 2 + a2 ^ 2 + a3 ^ 2 = 0 := by
        have h1 := hm1sq
        rw [← hm1z] at h1
        simpa using h1.symm
      have ha1z : a1 = 0 := by
        have h1 : a1 ^ 2 ≤ 0 := by
          linarith only [hsum, sq_nonneg a2, sq_nonneg a3]
        exact pow_eq_zero_iff two_ne_zero |>.mp
          (le_antisymm h1 (sq_nonneg a1))
      have ha2z : a2 = 0 := by
        have h1 : a2 ^ 2 ≤ 0 := by
          linarith only [hsum, sq_nonneg a1, sq_nonneg a3]
        exact pow_eq_zero_iff two_ne_zero |>.mp
          (le_antisymm h1 (sq_nonneg a2))
      have ha3z : a3 = 0 := by
        have h1 : a3 ^ 2 ≤ 0 := by
          linarith only [hsum, sq_nonneg a1, sq_nonneg a2]
        exact pow_eq_zero_iff two_ne_zero |>.mp
          (le_antisymm h1 (sq_nonneg a3))
      have hDz : D = 0 := by rw [hD, ha1z, ha2z, ha3z]; ring
      rw [hDz, ← hm1z] at h
      simp at h
    · have hpos : 0 < m1 * m2 := mul_pos hm1pos hm2pos
      have hxabs : |D / (m1 * m2)| ≤ 1 := by
        rw [abs_div, abs_of_pos hpos]
        exact (div_le_one hpos).mpr habs
      have hx1 : -1 ≤ D / (m1 * m2) := (abs_le.mp hxabs).1
      have hx2 : D / (m1 * m2) ≤ 1 := (abs_le.mp hxabs).2
      have hdeg : degrees (Real.arcsin (D / (m1 * m2))) * Real.pi / 180 =
          Real.arcsin (D / (m1 * m2)) := by
        unfold degrees
        field_simp
      rw [hdeg, Real.sin_arcsin hx1 hx2]
      have hdm : D / (m1 * m2) * m2 = D / m1 := by
        field_simp
        ring
      rw [hdm, gt_iff_lt, lt_div_iff₀ hm1pos]
      have hassoc : m1 * R_E * s = R_E * s * m1 := by ring
      linarith only [h, hassoc]

/-- C4 (amended): for every sample, visibility implies
`sin(elevation) · ‖r_station‖ > R_E · sin(min_elev)` — the exact
geometric content of the code's visibility test.  This coincides with
`elevation ≥ min_elev` only when the station's geocentric radius
`‖r_station‖` equals the mean radius `R_E = 6,371,302 m` used by the test;
for stations with a larger radius a visible sample's elevation can lie
below `min_elev` by far more than the claimed 1e-6 degrees (see the
counterexample theorem). -/
theorem C4_visibility_sine_bound (station : GroundStation)
    (sat : SatPosition) (h : calculate_visibility station sat) :
    Real.sin ((calculate_azimuth_elevation station sat).2 * Real.pi / 180) *
      Real.sqrt (station.pos.x ^ 2 + station.pos.y ^ 2 +
        station.pos.z ^ 2) >
      R_E * Real.sin station.elevation_min := by
  simp only [calculate_visibility, visibility_value] at h
  rw [calculate_azimuth_elevation_snd]
  exact visibility_sine_aux (sat.x - station.pos.x) (sat.y - station.pos.y)
    (sat.z - station.pos.z) station.pos.x station.pos.y station.pos.z
    (Real.sin station.elevation_min) h

/-- A ground station on the equator at sea level with a 90° minimum
elevation: `GroundStation((0, 0, 0), elevation_min=90)`. -/
noncomputable def c4_station : GroundStation :=
  groundStationInit (0, 0, 0) 90 "equator"

/-- A satellite position 1935 m outward and 88 m sideways of the
equatorial station: range 1937 m, `sin(elevation) = 1935/1937`. -/
noncomputable def c4_sat : SatPosition := ⟨6380071, 88, 0⟩

/-- Concrete coordinates of the equatorial station: the WGS-84 transform
at latitude 0, longitude 0, altitude 0 gives the ECEF point
`(R_ECV, 0, 0) = (6378136, 0, 0)`, and the stored minimum elevation is
`radians(90) = π/2`. -/
theorem c4_station_eval :
    c4_station.pos.x = 6378136 ∧ c4_station.pos.y = 0 ∧
    c4_station.pos.z = 0 ∧ c4_station.elevation_min = Real.pi / 2 := by
  refine ⟨?_, ?_, ?_, ?_⟩
  · simp [c4_station, groundStationInit, transform_geodetic_to_ecef,
      radians, R_ECV, Real.sin_zero, Real.cos_zero, Real.sqrt_one]
  · simp [c4_station, groundStationInit, transform_geodetic_to_ecef,
      radians, Real.sin_zero, Real.cos_zero]
  · simp [c4_station, groundStationInit, transform_geodetic_to_ecef,
      radians, Real.sin_zero, Real.cos_zero]
  · show radians 90 = Real.pi / 2
    unfold radians
    ring

/-- The satellite `c4_sat` is visible from `c4_station` despite the 90°
minimum elevation: the visibility test compares against the mean radius
`R_E = 6371302` while the station's geocentric radius is `6378136`. -/
theorem c4_visible : calculate_visibility c4_station c4_sat := by
  obtain ⟨hx, hy, hz, he⟩ := c4_station_eval
  simp only [calculate_visibility, visibility_value, hx, hy, hz, he, c4_sat]
  rw [Real.sin_pi_div_two]
  have hs : Real.sqrt (((6380071:ℝ) - 6378136) ^ 2 + (88 - 0) ^ 2 +
      (0 - 0) ^ 2) = 1937 := by
    rw [show (((6380071:ℝ) - 6378136) ^ 2 + (88 - 0) ^ 2 + (0 - 0) ^ 2) =
      1937 ^ 2 by norm_num]
    exact Real.sqrt_sq (by norm_num)
  rw [hs]
  norm_num [R_E]

/-- Witness for `C4_visibility_sine_bound` at the concrete visible
sample. -/
theorem C4_visibility_sine_bound_witness :
    Real.sin ((calculate_azimuth_elevation c4_station c4_sat).2 *
        Real.pi / 180) *
      Real.sqrt (c4_station.pos.x ^ 2 + c4_station.pos.y ^ 2 +
        c4_station.pos.z ^ 2) >
      R_E * Real.sin c4_station.elevation_min :=
  C4_visibility_sine_bound c4_station c4_sat c4_visible

/-- C4 (counterexample): the station `GroundStation((0,0,0), 90)` has its
minimum elevation at 90°, yet the sample `c4_sat` is VISIBLE while its
elevation `degrees(asin(1935/1937)) ≈ 36.9°` is far below
`90° − 1e-6°` — refuting visibility ⟹ elevation ≥ min_elev within 1e-6°.
The cause: the test multiplies `sin(min_elev)` by the mean radius
`R_E = 6,371,302 m`, smaller than this station's geocentric radius
`6,378,136 m`. -/
theorem C4_counterexample :
    calculate_visibility c4_station c4_sat ∧
    degrees c4_station.elevation_min = 90 ∧
    (calculate_azimuth_elevation c4_station c4_sat).2 <
      degrees c4_station.elevation_min - 1e-6 := by
  obtain ⟨hx, hy, hz, he⟩ := c4_station_eval
  have hdeg90 : degrees (Real.pi / 2) = 90 := by
    unfold degrees
    field_simp
    ring
  refine ⟨c4_visible, by rw [he, hdeg90], ?_⟩
  rw [he, hdeg90, calculate_azimuth_elevation_snd, hx, hy, hz]
  simp only [c4_sat]
  have hm1 : Real.sqrt (((6380071:ℝ) - 6378136) ^ 2 + (88 - 0) ^ 2 +
      (0 - 0) ^ 2) = 1937 := by
    rw [show (((6380071:ℝ) - 6378136) ^ 2 + (88 - 0) ^ 2 + (0 - 0) ^ 2) =
      1937 ^ 2 by norm_num]
    exact Real.sqrt_sq (by norm_num)
  have hm2 : Real.sqrt ((6378136:ℝ) ^ 2 + 0 ^ 2 + 0 ^ 2) = 6378136 := by
    rw [show ((6378136:ℝ) ^ 2 + 0 ^ 2 + 0 ^ 2) = 6378136 ^ 2 by norm_num]
    exact Real.sqrt_sq (by norm_num)
  rw [hm1, hm2]
  have hxval : (((6380071:ℝ) - 6378136) * 6378136 + (88 - 0) * 0 +
      (0 - 0) * 0) / (1937 * 6378136) = 1935 / 1937 := by
    norm_num
  rw [hxval]
  have harc : Real.arcsin (1935 / 1937) < Real.pi / 2 - 0.04 := by
    have hmem1 : (1935 / 1937 : ℝ) ∈ Set.Icc (-1:ℝ) 1 := by
      constructor <;> norm_num
    have hmem2 : (Real.pi / 2 - 0.04) ∈
        Set.Icc (-(Real.pi / 2)) (Real.pi / 2) := by
      constructor
      · nlinarith [Real.pi_gt_three]
      · nlinarith [Real.pi_gt_three]
    rw [Real.arcsin_lt_iff_lt_sin hmem1 hmem2, Real.sin_pi_div_two_sub]
    have habs04 : |(0.04:ℝ)| = 0.04 := abs_of_pos (by norm_num)
    have hcos := Real.cos_bound (x := 0.04) (by rw [habs04]; norm_num)
    have h2 := (abs_sub_le_iff.mp hcos).2
    rw [habs04] at h2
    nlinarith [h2]
  unfold degrees
  have hpi : (0:ℝ) < Real.pi := Real.pi_pos
  have hlt : Real.arcsin (1935 / 1937) * 180 / Real.pi <
      (Real.pi / 2 - 0.04) * 180 / Real.pi := by
    gcongr
  have hfinal : (Real.pi / 2 - 0.04) * 180 / Real.pi < 90 - 1e-6 := by
    rw [div_lt_iff₀ hpi]
    nlinarith [Real.pi_gt_three, Real.pi_lt_d2]
  linarith [hlt, hfinal]

/-- Python dictionary read `d[k]` on an association list: first entry with
the key, `none` when the key is missing (a missing key raises
`KeyError` at the call sites, which surface it in their `Except`). -/
def dict_lookup {κ β : Type} [DecidableEq κ] : List (κ × β) → κ → Option β
  | [], _ => none
  | p :: tl, k => if p.1 = k then some p.2 else dict_lookup tl k

/-- `self.comm_data[dt].uplink = uplink; self.comm_data[dt].downlink =
downlink` (communication.py:476-477): mutate the sample's two link fields
in place; reading `comm_data[dt]` on a missing key raises `KeyError`. -/
noncomputable def comm_update_links (comm_data : List (ℤ × CommParams))
    (dt : ℤ) (ud : Option ℝ × Option ℝ) :
    Except PyErr (List (ℤ × CommParams)) :=
  if comm_data.any (fun p => decide (p.1 = dt)) then
    .ok (comm_data.map (fun p =>
      if p.1 = dt then
        (p.1, { p.2 with uplink := ud.1, downlink := ud.2 })
      else p))
  else .error .keyError

/-- The loop of `recalculate_uplink_downlink` (communication.py:471-478):
walk the instants to recalculate in order, computing each sample's links
from the two consecutive trajectory positions, updating `comm_data` in
place and advancing `prev_dt`. -/
noncomputable def recalc_loop (sat : Satellite) (station : GroundStation)
    (pos_ecef : List (ℤ × SatPosition)) :
    ℤ → List ℤ → List (ℤ × CommParams) →
    Except PyErr (List (ℤ × CommParams))
  | _, [], comm_data => .ok comm_data
  | prev_dt, dt :: rest, comm_data =>
      match dict_lookup pos_ecef prev_dt, dict_lookup pos_ecef dt with
      | some prev_pos, some pos =>
          match comm_update_links comm_data dt
              (calculate_uplink_downlink sat station prev_pos pos) with
          | .error e => .error e
          | .ok comm_next => recalc_loop sat station pos_ecef dt rest comm_next
      | _, _ => .error .keyError

/-- `SatelliteStationComm.recalculate_uplink_downlink`
(communication.py:457-488): when the satellite has a predicted trajectory,
sort the trajectory instants that are ≥ `start_dt`, POP the first of them
as the initial `prev_dt` (so that first instant's own sample is never
recalculated; an empty selection raises `IndexError` at `pop(0)`), and
recompute uplink/downlink for the remaining instants.  Without a
trajectory the method only logs a warning and `comm_data` is unchanged. -/
noncomputable def recalculate_uplink_downlink (sat : Satellite)
    (station : GroundStation) (comm_data : List (ℤ × CommParams))
    (start_dt : ℤ) : Except PyErr (List (ℤ × CommParams)) :=
  match sat.pos_ecef with
  | none => .ok comm_data
  | some pos_ecef =>
      match ((pos_ecef.map (fun p => p.1)).filter
          (fun dt => decide (start_dt ≤ dt))).mergeSort
          (fun a b => decide (a ≤ b)) with
      | [] => .error .indexError
      | prev_dt :: rest => recalc_loop sat station pos_ecef prev_dt rest
          comm_data

/-- Lookup through the in-place field update of `comm_update_links`. -/
theorem dict_lookup_map_update (dt : ℤ) (f : CommParams → CommParams) :
    ∀ (l : List (ℤ × CommParams)) (k : ℤ),
      dict_lookup (l.map (fun p => if p.1 = dt then (p.1, f p.2) else p)) k =
        if k = dt then (dict_lookup l dt).map f else dict_lookup l k := by
  intro l
  induction l with
  | nil =>
    intro k
    simp [dict_lookup]
  | cons p tl ih =>
    intro k
    simp only [List.map_cons]
    by_cases hp : p.1 = dt
    · by_cases hk : k = dt
      · subst hk
        simp [dict_lookup, hp, ih]
      · have hpk : ¬(p.1 = k) := fun h => hk (h.symm.trans hp)
        have hdk : ¬(dt = k) := fun h => hk h.symm
        simp [dict_lookup, hp, hpk, hk, hdk, ih]
    · by_cases hpk : p.1 = k
      · have hk : ¬(k = dt) := fun h => hp (hpk.trans h)
        simp [dict_lookup, hp, hpk, hk]
      · simp [dict_lookup, hp, hpk, ih]

/-- A key that occurs in the association list has a lookup result. -/
theorem dict_lookup_isSome_of_mem {κ β : Type} [DecidableEq κ] :
    ∀ (l : List (κ × β)) (k : κ) (p : κ × β), p ∈ l → p.1 = k →
      (dict_lookup l k).isSome := by
  intro l
  induction l with
  | nil =>
    intro k p hp _
    cases hp
  | cons q tl ih =>
    intro k p hp hpk
    by_cases hq : q.1 = k
    · simp [dict_lookup, hq]
    · rcases List.mem_cons.mp hp with h1 | h1
      · exact absurd (h1 ▸ hpk) hq
      · simpa [dict_lookup, hq] using ih k p h1 hpk

/-- Specification of `comm_update_links`: success finds the old sample and
replaces exactly its two link fields, leaving every other key's entry —
and the sample's position, elevation, azimuth and visibility — alone. -/
theorem comm_update_links_spec (comm_data : List (ℤ × CommParams))
    (dt : ℤ) (ud : Option ℝ × Option ℝ)
    (comm_next : List (ℤ × CommParams))
    (h : comm_update_links comm_data dt ud = .ok comm_next) :
    (∃ old, dict_lookup comm_data dt = some old ∧
      dict_lookup comm_next dt =
        some { old with uplink := ud.1, downlink := ud.2 }) ∧
    (∀ k, k ≠ dt → dict_lookup comm_next k = dict_lookup comm_data k) := by
  unfold comm_update_links at h
  split at h
  case isTrue hany =>
    cases h
    have hsome : (dict_lookup comm_data dt).isSome := by
      rw [List.any_eq_true] at hany
      obtain ⟨p, hp, hpk⟩ := hany
      rw [decide_eq_true_eq] at hpk
      exact dict_lookup_isSome_of_mem comm_data dt p hp hpk
    obtain ⟨old, hold⟩ := Option.isSome_iff_exists.mp hsome
    refine ⟨⟨old, hold, ?_⟩, ?_⟩
    · rw [dict_lookup_map_update dt
        (fun c => { c with uplink := ud.1, downlink := ud.2 }), if_pos rfl,
        hold]
      rfl
    · intro k hk
      rw [dict_lookup_map_update dt
        (fun c => { c with uplink := ud.1, downlink := ud.2 }), if_neg hk]
  case isFalse => cases h

/-- Specification of the `recalculate_uplink_downlink` loop: on success
every instant of the walked list gets its sample's links recomputed from
the two consecutive trajectory positions (all other fields kept), and the
entry of every other key — including the initial `prev_dt` — is exactly
what it was before. -/
theorem recalc_loop_spec (sat : Satellite) (station : GroundStation)
    (pos_ecef : List (ℤ × SatPosition)) :
    ∀ (rest : List ℤ) (prev_dt : ℤ)
      (comm_data comm' : List (ℤ × CommParams)),
      rest.Nodup →
      recalc_loop sat station pos_ecef prev_dt rest comm_data = .ok comm' →
      (∀ pr ∈ (prev_dt :: rest).zip rest, ∃ prev_pos pos old,
        dict_lookup pos_ecef pr.1 = some prev_pos ∧
        dict_lookup pos_ecef pr.2 = some pos ∧
        dict_lookup comm_data pr.2 = some old ∧
        dict_lookup comm' pr.2 = some
          { old with
            uplink := (calculate_uplink_downlink sat station prev_pos pos).1
            downlink :=
              (calculate_uplink_downlink sat station prev_pos pos).2 }) ∧
      (∀ k, k ∉ rest → dict_lookup comm' k = dict_lookup comm_data k) := by
  intro rest
  induction rest with
  | nil =>
    intro prev_dt comm_data comm' _ hok
    cases hok
    exact ⟨by simp, fun k _ => rfl⟩
  | cons dt rest' ih =>
    intro prev_dt comm_data comm' hnd hok
    have hd : dt ∉ rest' := (List.nodup_cons.mp hnd).1
    have hnd' : rest'.Nodup := (List.nodup_cons.mp hnd).2
    unfold recalc_loop at hok
    split at hok
    case h_1 prev_pos pos heq1 heq2 =>
      split at hok
      case h_1 => cases hok
      case h_2 comm_next heq3 =>
        obtain ⟨hA, hB⟩ := ih dt comm_next comm' hnd' hok
        obtain ⟨⟨old, hold, hnew⟩, hother⟩ :=
          comm_update_links_spec comm_data dt _ comm_next heq3
        constructor
        · intro pr hpr
          rw [List.zip_cons_cons] at hpr
          rcases List.mem_cons.mp hpr with hpr1 | hpr1
          · subst hpr1
            refine ⟨prev_pos, pos, old, heq1, heq2, hold, ?_⟩
            rw [hB dt hd]
            exact hnew
          · obtain ⟨pp, pd, old1, h1, h2, h3, h4⟩ := hA pr hpr1
            have hpr2 : pr.2 ∈ rest' := by
              obtain ⟨a, b⟩ := pr
              exact (List.of_mem_zip hpr1).2
            have hne : pr.2 ≠ dt := fun h => hd (h ▸ hpr2)
            exact ⟨pp, pd, old1, h1, h2, (hother pr.2 hne) ▸ h3, h4⟩
        · intro k hk
          have hk1 : k ≠ dt := fun h => hk (by simp [h])
          have hk2 : k ∉ rest' := fun h => hk (by simp [h])
          rw [hB k hk2, hother k hk1]
    case h_2 => cases hok

/-- C3 (amended): after `recalculate_uplink_downlink(start_dt)` — invoked
by `setup_new_frequencies` with the new frequencies already installed on
the satellite — letting `dts` be the sorted trajectory instants that are
≥ `start_dt`: every instant of `dts` EXCEPT the earliest has its sample's
uplink and downlink recomputed from the new frequencies via the
consecutive-position Doppler formula, with azimuth, elevation, visibility
and position untouched; the sample at the earliest instant ≥ `start_dt`
(consumed as the initial Doppler predecessor) and every sample at an
instant < `start_dt` keep their previous entries unchanged. -/
theorem C3_recalculate_links (sat : Satellite) (station : GroundStation)
    (pos_ecef : List (ℤ × SatPosition))
    (comm_data comm' : List (ℤ × CommParams)) (start_dt : ℤ)
    (hpos : sat.pos_ecef = some pos_ecef)
    (hnd : (pos_ecef.map (fun p => p.1)).Nodup)
    (hok : recalculate_uplink_downlink sat station comm_data start_dt =
      .ok comm') :
    ∃ dts : List ℤ,
      dts = ((pos_ecef.map (fun p => p.1)).filter
        (fun dt => decide (start_dt ≤ dt))).mergeSort
        (fun a b => decide (a ≤ b)) ∧
      dts ≠ [] ∧
      (∀ pr ∈ dts.zip dts.tail, ∃ prev_pos pos old,
        dict_lookup pos_ecef pr.1 = some prev_pos ∧
        dict_lookup pos_ecef pr.2 = some pos ∧
        dict_lookup comm_data pr.2 = some old ∧
        dict_lookup comm' pr.2 = some
          { old with
            uplink := (calculate_uplink_downlink sat station prev_pos pos).1
            downlink :=
              (calculate_uplink_downlink sat station prev_pos pos).2 }) ∧
      (∀ k, k ∉ dts.tail → dict_lookup comm' k = dict_lookup comm_data k) := by
  unfold recalculate_uplink_downlink at hok
  rw [hpos] at hok
  have hok2 : (match ((pos_ecef.map (fun p => p.1)).filter
      (fun dt => decide (start_dt ≤ dt))).mergeSort
      (fun a b => decide (a ≤ b)) with
    | [] => (Except.error PyErr.indexError :
        Except PyErr (List (ℤ × CommParams)))
    | prev_dt :: rest =>
        recalc_loop sat station pos_ecef prev_dt rest comm_data) =
      .ok comm' := hok
  have hnds : (((pos_ecef.map (fun p => p.1)).filter
      (fun dt => decide (start_dt ≤ dt))).mergeSort
      (fun a b => decide (a ≤ b))).Nodup :=
    ((List.mergeSort_perm _ _).nodup_iff).mpr (hnd.filter _)
  cases hsort : ((pos_ecef.map (fun p => p.1)).filter
      (fun dt => decide (start_dt ≤ dt))).mergeSort
      (fun a b => decide (a ≤ b)) with
  | nil =>
    rw [hsort] at hok2
    simp at hok2
  | cons d0 rest =>
    rw [hsort] at hok2 hnds
    simp only [] at hok2
    obtain ⟨hA, hB⟩ := recalc_loop_spec sat station pos_ecef rest d0
      comm_data comm' (List.nodup_cons.mp hnds).2 hok2
    refine ⟨d0 :: rest, rfl, by simp, ?_, ?_⟩
    · simpa using hA
    · simpa using hB

/-- A `comm_data` sample at instant 1, computed before any frequency was
configured (both links `None`). -/
noncomputable def c3_entry1 : CommParams :=
  { pos_sat_ecef := ⟨7000100, 0, 0⟩, elevation := 10, azimuth := 20
    visibility := True, uplink := none, downlink := none }

/-- A `comm_data` sample at instant 2, likewise with `None` links. -/
noncomputable def c3_entry2 : CommParams :=
  { pos_sat_ecef := ⟨7000200, 0, 0⟩, elevation := 11, azimuth := 21
    visibility := True, uplink := none, downlink := none }

/-- A three-sample predicted trajectory at instants 0, 1, 2. -/
noncomputable def c3_pos : List (ℤ × SatPosition) :=
  [(0, ⟨7000000, 0, 0⟩), (1, ⟨7000100, 0, 0⟩), (2, ⟨7000200, 0, 0⟩)]

/-- The satellite after `setup_new_frequencies` installed 437398600 Hz on
both links. -/
noncomputable def c3_sat : Satellite :=
  { norad_id := 57173
    uplink_freq := some 437398600
    downlink_freq := some 437398600
    pos_ecef := some c3_pos }

/-- `comm_data` before the recalculation: entries at instants 1 and 2
(instant 0 was popped by `calculate_comm_for_predicted_period`), both with
`None` links. -/
noncomputable def c3_comm : List (ℤ × CommParams) :=
  [(1, c3_entry1), (2, c3_entry2)]

/-- `comm_data` after `recalculate_uplink_downlink(start_dt = 1)`: only
the entry at instant 2 changed. -/
noncomputable def c3_comm_after : List (ℤ × CommParams) :=
  [(1, c3_entry1),
   (2, { c3_entry2 with
      uplink := (calculate_uplink_downlink c3_sat samara_station
        ⟨7000100, 0, 0⟩ ⟨7000200, 0, 0⟩).1
      downlink := (calculate_uplink_downlink c3_sat samara_station
        ⟨7000100, 0, 0⟩ ⟨7000200, 0, 0⟩).2 })]

/-- Concrete evaluation of `recalculate_uplink_downlink` on the
three-sample state with `start_dt = 1`. -/
theorem c3_run_eq :
    recalculate_uplink_downlink c3_sat samara_station c3_comm 1 =
      .ok c3_comm_after := by
  have hf : (c3_pos.map (fun p => p.1)).filter
      (fun dt => decide ((1:ℤ) ≤ dt)) = [1, 2] := by decide
  have hsort : ((c3_pos.map (fun p => p.1)).filter
      (fun dt => decide ((1:ℤ) ≤ dt))).mergeSort
      (fun a b => decide (a ≤ b)) = [1, 2] := by
    rw [hf]
    exact List.mergeSort_of_sorted (by decide)
  have step1 : recalculate_uplink_downlink c3_sat samara_station c3_comm 1 =
      (match ((c3_pos.map (fun p => p.1)).filter
          (fun dt => decide ((1:ℤ) ≤ dt))).mergeSort
          (fun a b => decide (a ≤ b)) with
        | [] => (Except.error PyErr.indexError :
            Except PyErr (List (ℤ × CommParams)))
        | prev_dt :: rest =>
            recalc_loop c3_sat samara_station c3_pos prev_dt rest c3_comm) :=
    rfl
  rw [step1, hsort]
  rfl

/-- Witness for `C3_recalculate_links` on the concrete three-sample
state. -/
theorem C3_recalculate_links_witness :
    ∃ dts : List ℤ,
      dts = ((c3_pos.map (fun p => p.1)).filter
        (fun dt => decide ((1:ℤ) ≤ dt))).mergeSort
        (fun a b => decide (a ≤ b)) ∧
      dts ≠ [] ∧
      (∀ pr ∈ dts.zip dts.tail, ∃ prev_pos pos old,
        dict_lookup c3_pos pr.1 = some prev_pos ∧
        dict_lookup c3_pos pr.2 = some pos ∧
        dict_lookup c3_comm pr.2 = some old ∧
        dict_lookup c3_comm_after pr.2 = some
          { old with
            uplink := (calculate_uplink_downlink c3_sat samara_station
              prev_pos pos).1
            downlink := (calculate_uplink_downlink c3_sat samara_station
              prev_pos pos).2 }) ∧
      (∀ k, k ∉ dts.tail →
        dict_lookup c3_comm_after k = dict_lookup c3_comm k) :=
  C3_recalculate_links c3_sat samara_station c3_pos c3_comm c3_comm_after 1
    rfl (by decide) c3_run_eq

/-- C3 (counterexample): with new non-zero frequencies installed and
`recalculate_uplink_downlink` started at instant 1, the sample AT
instant 1 — an instant ≥ the call time — keeps its previous (`None`)
uplink and downlink: the code pops the earliest instant ≥ `start_dt` as
the Doppler predecessor and never recomputes that sample, while the claim
requires every sample at an instant ≥ call time to carry
`f/(1 ∓ v/c)` links, which for the installed non-zero frequency is never
`None`. -/
theorem C3_counterexample :
    recalculate_uplink_downlink c3_sat samara_station c3_comm 1 =
      .ok c3_comm_after ∧
    dict_lookup c3_comm_after 1 = dict_lookup c3_comm 1 ∧
    (dict_lookup c3_comm 1).map (fun p => p.uplink) = some none ∧
    c3_sat.uplink_freq = some 437398600 ∧
    (∀ prev_pos pos : SatPosition,
      (calculate_uplink_downlink c3_sat samara_station prev_pos pos).1 ≠
        none) := by
  refine ⟨c3_run_eq, rfl, rfl, rfl, ?_⟩
  intro prev_pos pos
  simp only [calculate_uplink_downlink, c3_sat]
  rw [if_neg (by norm_num : ¬((437398600:ℝ) = 0))]
  simp

/-- A positive dot product forces both vector norms to be positive. -/
theorem sqrt_pos_of_dot_pos (a1 a2 a3 b1 b2 b3 : ℝ)
    (h : 0 < a1 * b1 + a2 * b2 + a3 * b3) :
    0 < Real.sqrt (a1 ^ 2 + a2 ^ 2 + a3 ^ 2) ∧
    0 < Real.sqrt (b1 ^ 2 + b2 ^ 2 + b3 ^ 2) := by
  constructor
  · rw [Real.sqrt_pos]
    by_contra hc
    push_neg at hc
    have ha1 : a1 = 0 := pow_eq_zero_iff two_ne_zero |>.mp
      (le_antisymm (by linarith only [hc, sq_nonneg a2, sq_nonneg a3])
        (sq_nonneg a1))
    have ha2 : a2 = 0 := pow_eq_zero_iff two_ne_zero |>.mp
      (le_antisymm (by linarith only [hc, sq_nonneg a1, sq_nonneg a3])
        (sq_nonneg a2))
    have ha3 : a3 = 0 := pow_eq_zero_iff two_ne_zero |>.mp
      (le_antisymm (by linarith only [hc, sq_nonneg a1, sq_nonneg a2])
        (sq_nonneg a3))
    rw [ha1, ha2, ha3] at h
    simp at h
  · rw [Real.sqrt_pos]
    by_contra hc
    push_neg at hc
    have hb1 : b1 = 0 := pow_eq_zero_iff two_ne_zero |>.mp
      (le_antisymm (by linarith only [hc, sq_nonneg b2, sq_nonneg b3])
        (sq_nonneg b1))
    have hb2 : b2 = 0 := pow_eq_zero_iff two_ne_zero |>.mp
      (le_antisymm (by linarith only [hc, sq_nonneg b1, sq_nonneg b3])
        (sq_nonneg b2))
    have hb3 : b3 = 0 := pow_eq_zero_iff two_ne_zero |>.mp
      (le_antisymm (by linarith only [hc, sq_nonneg b1, sq_nonneg b2])
        (sq_nonneg b3))
    rw [hb1, hb2, hb3] at h
    simp at h

/-- At `min_elev = 0` the source's visibility test is exactly the sign of
the elevation angle: a sample is visible if and only if its elevation in
degrees is positive.  This justifies reading the synthetic example's
visibility flags off its elevation timeline. -/
theorem calculate_visibility_iff_elevation_pos (station : GroundStation)
    (sat : SatPosition) (h0 : station.elevation_min = 0) :
    calculate_visibility station sat ↔
      0 < (calculate_azimuth_elevation station sat).2 := by
  simp only [calculate_visibility, visibility_value, h0, Real.sin_zero,
    mul_zero, sub_zero]
  rw [calculate_azimuth_elevation_snd]
  unfold degrees
  have hpi : (0:ℝ) < Real.pi := Real.pi_pos
  have hscale : ∀ y : ℝ, 0 < y * 180 / Real.pi ↔ 0 < y := by
    intro y
    rw [lt_div_iff₀ hpi, zero_mul]
    constructor
    · intro hy
      nlinarith
    · intro hy
      nlinarith
  rw [hscale, Real.arcsin_pos]
  set D := (sat.x - station.pos.x) * station.pos.x +
    (sat.y - station.pos.y) * station.pos.y +
    (sat.z - station.pos.z) * station.pos.z with hD
  constructor
  · intro hdot
    obtain ⟨hm1, hm2⟩ := sqrt_pos_of_dot_pos _ _ _ _ _ _ hdot
    exact div_pos hdot (mul_pos hm1 hm2)
  · intro hx
    rcases div_pos_iff.mp hx with ⟨h1, _⟩ | ⟨_, h2⟩
    · exact h1
    · exact absurd h2 (not_lt.mpr (mul_nonneg (Real.sqrt_nonneg _)
        (Real.sqrt_nonneg _)))
